import Mathlib

set_option maxRecDepth 1000000

/-!
Verification of the PolicyRadar keyword-extraction module.

This file gives a shallow embedding of the two keyword-extraction modules of
the repository:

* `PolicyKeywords` embeds `src/policy-keywords.js` (the unified
  "PolicyKeywords" module: `extractKeywords`, `extractPhrases`,
  `extractAcronyms`, `categorizeKeyword`, `isPersonName`, and its static
  tables).
* `PolicyKeywordsV62` embeds the "PolicyKeywords v6.2" module found in
  `src/unnamed/part_008` (`extractFromText`, `extractFromArticles`,
  `normalize`, and its own static tables).

Strings are modelled as lists of code points (`List Nat`); the helper `S`
converts a Lean string literal.  JavaScript string operations used by the
source (`toLowerCase`, `toUpperCase`, `includes`, `indexOf` scanning,
`split(/\s+/)`, `replace`, `trim`, and the word-boundary regexes
`\b[A-Z]{2,6}\b`, `\b(name)\b`) are modelled for ASCII, which covers all
table data.  JavaScript `Map`s are modelled as insertion-ordered association
lists, and `Array.prototype.sort` (stable since ES2019) by insertion sort
with the comparator's ordering.  Object lookups are modelled as lookups of
the object literal's own properties.  Numeric options are modelled as `Nat`.
-/

/-- Code points of a string literal, as natural numbers. -/
def S (s : String) : List Nat := s.data.map Char.toNat

/-- ASCII uppercase letter A-Z. -/
def isUpperAZ (n : Nat) : Bool := 65 ≤ n && n ≤ 90

/-- ASCII lowercase letter a-z. -/
def isLowerAZ (n : Nat) : Bool := 97 ≤ n && n ≤ 122

/-- ASCII digit 0-9. -/
def isDigitC (n : Nat) : Bool := 48 ≤ n && n ≤ 57

/-- JavaScript regex word character `\w` = `[A-Za-z0-9_]`. -/
def isWordC (n : Nat) : Bool := isUpperAZ n || isLowerAZ n || isDigitC n || n == 95

/-- ASCII whitespace, as matched by the regex class `\s`. -/
def isWsC (n : Nat) : Bool := n == 32 || n == 9 || n == 10 || n == 13 || n == 12 || n == 11

/-- `String.prototype.toLowerCase` on one code point (ASCII range). -/
def lowerC (n : Nat) : Nat := if isUpperAZ n then n + 32 else n

/-- `String.prototype.toUpperCase` on one code point (ASCII range). -/
def upperC (n : Nat) : Nat := if isLowerAZ n then n - 32 else n

/-- `toLowerCase` on a whole string. -/
def lowerS (s : List Nat) : List Nat := s.map lowerC

/-- `toUpperCase` on a whole string. -/
def upperS (s : List Nat) : List Nat := s.map upperC

/-- `needle` occurs at the very start of `hay`. -/
def leadsWith : List Nat → List Nat → Bool
  | [], _ => true
  | _ :: _, [] => false
  | a :: as, b :: bs => a == b && leadsWith as bs

/-- JavaScript `hay.includes(needle)`: substring containment. -/
def jsIncludes : List Nat → List Nat → Bool
  | hay, needle =>
    leadsWith needle hay ||
      match hay with
      | [] => false
      | _ :: t => jsIncludes t needle

/-- Worker for `splitWs`; `cur` holds the current token reversed.  The first
argument is fuel (an upper bound on the remaining length), making the
recursion structural so that it reduces inside the kernel; each step consumes
at least one character, so `fuel = length` is always enough. -/
def splitWsGo (cur : List Nat) : Nat → List Nat → List (List Nat)
  | _, [] => [cur.reverse]
  | 0, _ :: _ => [cur.reverse]
  | fuel + 1, c :: t =>
    if isWsC c then cur.reverse :: splitWsGo [] fuel (t.dropWhile isWsC)
    else splitWsGo (c :: cur) fuel t

/-- JavaScript `s.split(/\s+/)`: split on whitespace runs.  A leading or a
trailing run produces an empty token, matching the JavaScript semantics. -/
def splitWs (s : List Nat) : List (List Nat) := splitWsGo [] s.length s

/-- Maximal runs of word characters of a text — the substrings a
word-boundary-delimited regex such as `\b[A-Z]{2,6}\b` can match.  The first
argument is fuel, see `splitWsGo`. -/
def wordRunsGo : Nat → List Nat → List (List Nat)
  | _, [] => []
  | 0, _ :: _ => []
  | fuel + 1, c :: t =>
    if isWordC c then (c :: t.takeWhile isWordC) :: wordRunsGo fuel (t.dropWhile isWordC)
    else wordRunsGo fuel t

/-- Maximal word-character runs of a text. -/
def wordRuns (s : List Nat) : List (List Nat) := wordRunsGo s.length s

/-- The `indexOf` scanning loop of `extractPhrases`, with fuel (see
`splitWsGo`): number of matches of `needle`, resuming each search just past
the previous match. -/
def scanCountGo (needle : List Nat) : Nat → List Nat → Nat
  | _, [] => 0
  | 0, _ :: _ => 0
  | fuel + 1, c :: t =>
    if leadsWith needle (c :: t) then 1 + scanCountGo needle fuel (t.drop (needle.length - 1))
    else scanCountGo needle fuel t

/-- Number of `indexOf` matches of `needle` in `hay`, scanning past each
match as `extractPhrases` does. -/
def scanCount (needle hay : List Nat) : Nat := scanCountGo needle hay.length hay

/-- JavaScript `String.prototype.trim` (ASCII whitespace). -/
def trimWs (s : List Nat) : List Nat := ((s.dropWhile isWsC).reverse.dropWhile isWsC).reverse

namespace PolicyKeywords

-- module policy-keywords.js: POLICY_PHRASES array (verbatim, duplicates kept)

def POLICY_PHRASES : List (List Nat) := [
  S "Digital India", S "Make in India", S "Startup India", S "Skill India",
  S "Atmanirbhar Bharat", S "Swachh Bharat", S "Ayushman Bharat", S "Jan Dhan",
  S "PM Kisan", S "PM Awas", S "PM Ujjwala", S "PM Mudra",
  S "PM Vishwakarma", S "National Education Policy", S "New Education Policy", S "NEP 2020",
  S "Production Linked Incentive", S "PLI Scheme", S "Smart Cities", S "Sagarmala",
  S "Bharatmala", S "Gati Shakti", S "National Infrastructure Pipeline", S "Unified Payments Interface",
  S "UPI", S "Aadhaar", S "DigiLocker", S "ONDC",
  S "Open Network for Digital Commerce", S "Digital Public Infrastructure", S "India Stack", S "Account Aggregator",
  S "CBDC", S "Digital Rupee", S "e-RUPI", S "CoWIN",
  S "Ayushman Bharat Digital Mission", S "ABDM", S "Reserve Bank of India", S "RBI",
  S "SEBI", S "IRDAI", S "PFRDA", S "IBBI",
  S "Insolvency and Bankruptcy", S "IBC", S "NCLT", S "NCLAT",
  S "Foreign Direct Investment", S "FDI", S "Foreign Portfolio Investment", S "FPI",
  S "Monetary Policy Committee", S "MPC", S "Repo Rate", S "CRR",
  S "SLR", S "Non-Performing Asset", S "NPA", S "Asset Reconstruction",
  S "ARC", S "Payment Aggregator", S "Payment Gateway", S "NBFC",
  S "HFC", S "Goods and Services Tax", S "GST", S "GST Council",
  S "IGST", S "CGST", S "SGST", S "Income Tax",
  S "Direct Tax", S "Indirect Tax", S "TDS", S "TCS",
  S "Advance Pricing Agreement", S "APA", S "Transfer Pricing", S "Faceless Assessment",
  S "Vivad se Vishwas", S "Labour Code", S "Labour Law", S "Industrial Relations Code",
  S "Code on Wages", S "Code on Social Security", S "Occupational Safety Code", S "EPFO",
  S "Employees Provident Fund", S "ESIC", S "Employees State Insurance", S "Minimum Wage",
  S "Living Wage", S "Gig Worker", S "Platform Worker", S "Fixed Term Employment",
  S "Contract Labour", S "Digital Personal Data Protection", S "DPDP Act", S "DPDPA",
  S "Data Protection", S "Data Privacy", S "Data Localization", S "IT Act",
  S "Information Technology Act", S "IT Rules", S "Intermediary Guidelines", S "Safe Harbour",
  S "Foreign Trade Policy", S "FTP", S "Export Promotion", S "Special Economic Zone",
  S "SEZ", S "Export Oriented Unit", S "EOU", S "DGFT",
  S "Director General of Foreign Trade", S "Anti-Dumping", S "Countervailing Duty", S "Safeguard Duty",
  S "Free Trade Agreement", S "FTA", S "Comprehensive Economic Partnership", S "Regional Comprehensive Economic Partnership",
  S "RCEP", S "National Green Tribunal", S "NGT", S "Environment Clearance",
  S "Environmental Impact Assessment", S "EIA", S "Coastal Regulation Zone", S "CRZ",
  S "Renewable Energy", S "Solar Energy", S "Wind Energy", S "Green Hydrogen",
  S "National Solar Mission", S "Green Energy Corridor", S "Carbon Credit", S "Carbon Market",
  S "Net Zero", S "Energy Transition", S "Electric Vehicle", S "EV Policy",
  S "FAME Scheme", S "National Highways Authority", S "NHAI", S "Toll Road",
  S "BOT", S "HAM", S "Dedicated Freight Corridor", S "DFC",
  S "High Speed Rail", S "Bullet Train", S "Metro Rail", S "RRTS",
  S "Regional Rapid Transit", S "Airports Authority of India", S "AAI", S "UDAN",
  S "Port", S "Sagarmala", S "Inland Waterway", S "Telecom Regulatory Authority",
  S "TRAI", S "Spectrum Auction", S "5G", S "6G",
  S "Broadband", S "BharatNet", S "Digital Village", S "National Broadband Mission",
  S "OTT Regulation", S "Semiconductor", S "Semicon India", S "Electronics Manufacturing",
  S "IT Hardware", S "Data Centre", S "Defence Acquisition", S "DPP",
  S "DAP", S "Make in India Defence", S "Strategic Partnership", S "Defence Offset",
  S "DRDO", S "Ordnance Factory", S "Defence Corridor", S "Defence Export",
  S "Minimum Support Price", S "MSP", S "Agricultural Produce Marketing", S "APMC",
  S "e-NAM", S "National Agriculture Market", S "Farmer Producer Organization", S "FPO",
  S "Contract Farming", S "PM-KISAN", S "Kisan Credit Card", S "KCC",
  S "Crop Insurance", S "PMFBY", S "National Health Mission", S "NHM",
  S "NRHM", S "NUHM", S "Pradhan Mantri Jan Arogya Yojana", S "PMJAY",
  S "Health Insurance", S "Medical Device", S "Pharmaceutical", S "Drug Price Control",
  S "NPPA", S "Clinical Trial", S "Medical Education", S "NEET",
  S "NMC", S "University Grants Commission", S "UGC", S "AICTE",
  S "NAAC", S "NIRF", S "Central University", S "IIT",
  S "IIM", S "NIT", S "IIIT", S "Skill Development",
  S "NSDC", S "ITI", S "Apprenticeship", S "Article 370",
  S "Article 356", S "Article 35A", S "Tenth Schedule", S "Anti-Defection",
  S "Governor", S "President Rule", S "Constitutional Amendment", S "Lok Sabha",
  S "Rajya Sabha", S "Parliament Session", S "Standing Committee", S "Parliamentary Committee",
  S "Joint Committee", S "Election Commission", S "Delimitation", S "EVM",
  S "VVPAT", S "Union Territory", S "UT", S "State Legislature",
  S "Vidhan Sabha", S "State Budget", S "Finance Commission", S "GST Compensation",
  S "Centrally Sponsored Scheme", S "CSS", S "Central Sector Scheme"
]

-- ACRONYMS object: acronym -> expansion

def ACRONYMS : List (List Nat × List Nat) := [
  (S "RBI", S "Reserve Bank of India"),
  (S "SEBI", S "Securities and Exchange Board of India"),
  (S "IRDAI", S "Insurance Regulatory and Development Authority of India"),
  (S "PFRDA", S "Pension Fund Regulatory and Development Authority"),
  (S "TRAI", S "Telecom Regulatory Authority of India"),
  (S "CCI", S "Competition Commission of India"),
  (S "NCLT", S "National Company Law Tribunal"),
  (S "NCLAT", S "National Company Law Appellate Tribunal"),
  (S "NGT", S "National Green Tribunal"),
  (S "CERC", S "Central Electricity Regulatory Commission"),
  (S "FSSAI", S "Food Safety and Standards Authority of India"),
  (S "BIS", S "Bureau of Indian Standards"),
  (S "NPPA", S "National Pharmaceutical Pricing Authority"),
  (S "NITI", S "NITI Aayog"),
  (S "PMO", S "Prime Minister\x27s Office"),
  (S "MoF", S "Ministry of Finance"),
  (S "MeitY", S "Ministry of Electronics and IT"),
  (S "DPIIT", S "Department for Promotion of Industry and Internal Trade"),
  (S "DGFT", S "Director General of Foreign Trade"),
  (S "CBDT", S "Central Board of Direct Taxes"),
  (S "CBIC", S "Central Board of Indirect Taxes and Customs"),
  (S "CAG", S "Comptroller and Auditor General"),
  (S "PLI", S "Production Linked Incentive"),
  (S "PMAY", S "Pradhan Mantri Awas Yojana"),
  (S "PMJAY", S "Pradhan Mantri Jan Arogya Yojana"),
  (S "PMKSY", S "Pradhan Mantri Krishi Sinchayee Yojana"),
  (S "PMFBY", S "Pradhan Mantri Fasal Bima Yojana"),
  (S "MGNREGA", S "Mahatma Gandhi National Rural Employment Guarantee Act"),
  (S "UDAN", S "Ude Desh ka Aam Nagrik"),
  (S "FAME", S "Faster Adoption and Manufacturing of Electric Vehicles"),
  (S "NPA", S "Non-Performing Asset"),
  (S "ARC", S "Asset Reconstruction Company"),
  (S "NBFC", S "Non-Banking Financial Company"),
  (S "HFC", S "Housing Finance Company"),
  (S "FDI", S "Foreign Direct Investment"),
  (S "FPI", S "Foreign Portfolio Investment"),
  (S "FII", S "Foreign Institutional Investor"),
  (S "PE", S "Private Equity"),
  (S "VC", S "Venture Capital"),
  (S "IPO", S "Initial Public Offering"),
  (S "QIP", S "Qualified Institutional Placement"),
  (S "AIF", S "Alternative Investment Fund"),
  (S "REIT", S "Real Estate Investment Trust"),
  (S "InvIT", S "Infrastructure Investment Trust"),
  (S "GST", S "Goods and Services Tax"),
  (S "IGST", S "Integrated GST"),
  (S "CGST", S "Central GST"),
  (S "SGST", S "State GST"),
  (S "TDS", S "Tax Deducted at Source"),
  (S "TCS", S "Tax Collected at Source"),
  (S "MAT", S "Minimum Alternate Tax"),
  (S "UPI", S "Unified Payments Interface"),
  (S "NPCI", S "National Payments Corporation of India"),
  (S "ONDC", S "Open Network for Digital Commerce"),
  (S "CBDC", S "Central Bank Digital Currency"),
  (S "ABDM", S "Ayushman Bharat Digital Mission"),
  (S "DPDP", S "Digital Personal Data Protection"),
  (S "NHAI", S "National Highways Authority of India"),
  (S "AAI", S "Airports Authority of India"),
  (S "CONCOR", S "Container Corporation of India"),
  (S "DFC", S "Dedicated Freight Corridor"),
  (S "RRTS", S "Regional Rapid Transit System"),
  (S "BOT", S "Build-Operate-Transfer"),
  (S "HAM", S "Hybrid Annuity Model"),
  (S "PPP", S "Public-Private Partnership"),
  (S "EPC", S "Engineering Procurement Construction"),
  (S "NTPC", S "National Thermal Power Corporation"),
  (S "NHPC", S "National Hydroelectric Power Corporation"),
  (S "ONGC", S "Oil and Natural Gas Corporation"),
  (S "GAIL", S "Gas Authority of India Limited"),
  (S "IOCL", S "Indian Oil Corporation Limited"),
  (S "BPCL", S "Bharat Petroleum Corporation Limited"),
  (S "HPCL", S "Hindustan Petroleum Corporation Limited"),
  (S "SEZ", S "Special Economic Zone"),
  (S "EOU", S "Export Oriented Unit"),
  (S "MSME", S "Micro, Small and Medium Enterprises"),
  (S "PSU", S "Public Sector Undertaking"),
  (S "PSE", S "Public Sector Enterprise"),
  (S "CPSEs", S "Central Public Sector Enterprises")
]

-- STOPWORDS Set (membership only; duplicates in the literal are harmless)

def STOPWORDS : List (List Nat) := [
  S "a", S "an", S "the", S "and", S "or", S "but",
  S "in", S "on", S "at", S "to", S "for", S "of",
  S "with", S "by", S "from", S "as", S "is", S "was",
  S "are", S "were", S "been", S "be", S "have", S "has",
  S "had", S "do", S "does", S "did", S "will", S "would",
  S "could", S "should", S "may", S "might", S "must", S "shall",
  S "can", S "need", S "dare", S "this", S "that", S "these",
  S "those", S "it", S "its", S "they", S "them", S "their",
  S "he", S "she", S "him", S "her", S "his", S "hers",
  S "we", S "us", S "our", S "ours", S "you", S "your",
  S "yours", S "i", S "me", S "my", S "mine", S "who",
  S "whom", S "whose", S "which", S "what", S "where", S "when",
  S "why", S "how", S "all", S "each", S "every", S "both",
  S "few", S "more", S "most", S "other", S "some", S "such",
  S "no", S "nor", S "not", S "only", S "own", S "same",
  S "so", S "than", S "too", S "very", S "just", S "also",
  S "now", S "here", S "there", S "then", S "once", S "if",
  S "unless", S "until", S "while", S "during", S "before", S "after",
  S "above", S "below", S "between", S "through", S "about", S "against",
  S "into", S "over", S "under", S "again", S "further", S "then",
  S "once", S "any", S "up", S "down", S "out", S "off",
  S "over", S "crore", S "crores", S "lakh", S "lakhs", S "rupee",
  S "rupees", S "rs", S "inr", S "said", S "says", S "told",
  S "added", S "stated", S "noted", S "mentioned", S "according", S "per",
  S "cent", S "percent", S "percentage", S "year", S "years", S "month",
  S "months", S "week", S "weeks", S "day", S "days", S "time",
  S "times", S "today", S "yesterday", S "tomorrow", S "first", S "second",
  S "third", S "last", S "next", S "new", S "old", S "one",
  S "two", S "three", S "four", S "five", S "six", S "seven",
  S "eight", S "nine", S "ten", S "hundred", S "thousand", S "million",
  S "billion", S "trillion", S "mr", S "mrs", S "ms", S "dr",
  S "shri", S "smt", S "kumar", S "sharma", S "singh", S "minister",
  S "ministry", S "government", S "govt", S "official", S "officials", S "india",
  S "indian", S "country", S "nation", S "national", S "state", S "states",
  S "report", S "reports", S "news", S "update", S "updates", S "latest",
  S "source", S "sources", S "read", S "more", S "click", S "here",
  S "view", S "high", S "low", S "big", S "small", S "large",
  S "major", S "minor", S "key", S "top", S "set", S "get",
  S "put", S "take", S "make", S "give", S "come", S "go",
  S "see", S "look", S "amid", S "amid", S "among", S "despite",
  S "towards", S "across", S "along", S "global", S "world", S "international",
  S "domestic", S "local", S "regional", S "market", S "markets", S "stock",
  S "stocks", S "share", S "shares", S "price", S "prices", S "growth",
  S "rise", S "fall", S "drop", S "surge", S "jump", S "gain",
  S "loss", S "case", S "cases", S "matter", S "issue", S "issues",
  S "problem", S "problems", S "court", S "courts", S "judge", S "judges",
  S "hearing", S "trial", S "verdict", S "port", S "ports", S "trade",
  S "trades", S "trading", S "trader", S "traders", S "tech", S "technology",
  S "digital", S "online", S "internet", S "web", S "cyber", S "budget",
  S "budgets", S "fiscal", S "financial", S "finance", S "economic", S "economy",
  S "company", S "companies", S "firm", S "firms", S "business", S "businesses",
  S "sector", S "sectors", S "industry", S "industries", S "segment", S "segments",
  S "plan", S "plans", S "scheme", S "schemes", S "project", S "projects",
  S "program", S "move", S "moves", S "step", S "steps", S "action",
  S "actions", S "measure", S "measures", S "deal", S "deals", S "agreement",
  S "agreements", S "contract", S "contracts", S "bank", S "banks", S "banking",
  S "loan", S "loans", S "credit", S "debt", S "investment", S "investments",
  S "investor", S "investors", S "fund", S "funds", S "policy", S "policies",
  S "rule", S "rules", S "regulation", S "regulations", S "law", S "laws",
  S "legal", S "act", S "acts", S "bill", S "bills", S "amendment",
  S "trump", S "biden", S "modi", S "shah", S "rahul", S "gandhi",
  S "kejriwal", S "yogi", S "bjp", S "congress", S "aap", S "tmc",
  S "ncp", S "shiv", S "sena", S "jdu", S "rjd", S "grok",
  S "openai", S "chatgpt", S "gemini", S "claude", S "bard", S "china",
  S "chinese", S "usa", S "american", S "russia", S "russian", S "pakistan",
  S "january", S "february", S "march", S "april", S "may", S "june",
  S "july", S "august", S "september", S "october", S "november", S "december",
  S "monday", S "tuesday", S "wednesday", S "thursday", S "friday", S "saturday",
  S "sunday", S "ut", S "iti", S "nit", S "iit", S "nit",
  S "iisc", S "bits", S "arc", S "bot", S "ceo", S "cfo",
  S "cto", S "coo", S "vp", S "svp", S "evp", S "ltd",
  S "pvt", S "inc", S "llp", S "llc", S "corp", S "co",
  S "delhi", S "mumbai", S "bangalore", S "bengaluru", S "chennai", S "kolkata",
  S "hyderabad", S "pune", S "ahmedabad", S "jaipur", S "lucknow", S "kanpur",
  S "nagpur", S "indore", S "thane", S "bhopal", S "visakhapatnam", S "patna",
  S "vadodara", S "ghaziabad", S "ludhiana", S "agra", S "nashik", S "faridabad",
  S "meerut", S "rajkot", S "varanasi", S "srinagar", S "aurangabad", S "dhanbad",
  S "amritsar", S "allahabad", S "prayagraj", S "ranchi", S "howrah", S "coimbatore",
  S "jabalpur", S "gwalior", S "vijayawada", S "jodhpur", S "madurai", S "raipur",
  S "kochi", S "chandigarh", S "gurgaon", S "gurugram", S "noida", S "greater"
]

-- SYNONYMS object: alternate form -> canonical form

def SYNONYMS : List (List Nat × List Nat) := [
  (S "reserve bank", S "RBI"),
  (S "reserve bank of india", S "RBI"),
  (S "sebi", S "SEBI"),
  (S "securities exchange", S "SEBI"),
  (S "gst", S "GST"),
  (S "goods services tax", S "GST"),
  (S "goods and services tax", S "GST"),
  (S "upi", S "UPI"),
  (S "unified payments", S "UPI"),
  (S "unified payments interface", S "UPI"),
  (S "digital rupee", S "CBDC"),
  (S "central bank digital currency", S "CBDC"),
  (S "npa", S "NPA"),
  (S "non performing asset", S "NPA"),
  (S "non-performing asset", S "NPA"),
  (S "bad loan", S "NPA"),
  (S "fdi", S "FDI"),
  (S "foreign direct investment", S "FDI"),
  (S "fpi", S "FPI"),
  (S "foreign portfolio", S "FPI"),
  (S "startup india", S "Startup India"),
  (S "start-up india", S "Startup India"),
  (S "make in india", S "Make in India"),
  (S "digital india", S "Digital India"),
  (S "pli scheme", S "PLI Scheme"),
  (S "production linked incentive", S "PLI Scheme"),
  (S "production-linked incentive", S "PLI Scheme"),
  (S "lok sabha", S "Lok Sabha"),
  (S "lower house", S "Lok Sabha"),
  (S "rajya sabha", S "Rajya Sabha"),
  (S "upper house", S "Rajya Sabha"),
  (S "dpdp", S "DPDP Act"),
  (S "dpdpa", S "DPDP Act"),
  (S "data protection act", S "DPDP Act"),
  (S "digital personal data protection", S "DPDP Act"),
  (S "electric vehicle", S "EV"),
  (S "electric vehicles", S "EV"),
  (S "ev policy", S "EV Policy"),
  (S "msme", S "MSME"),
  (S "micro small medium", S "MSME"),
  (S "small business", S "MSME"),
  (S "sme", S "MSME")
]

-- KEYWORD_CATEGORIES (declaration order is the scan order)

def KEYWORD_CATEGORIES : List (List Nat × List (List Nat)) := [
  (S "Finance & Banking", [S "RBI", S "SEBI", S "bank", S "banking", S "loan", S "credit", S "NPA", S "NBFC", S "monetary", S "interest rate", S "repo", S "inflation", S "liquidity", S "deposit", S "lending", S "fintech", S "payment", S "UPI", S "digital payment"]),
  (S "Taxation", [S "GST", S "tax", S "taxation", S "income tax", S "direct tax", S "indirect tax", S "TDS", S "TCS", S "ITR", S "assessment", S "CBDT", S "CBIC", S "customs", S "duty"]),
  (S "Trade & Commerce", [S "export", S "import", S "trade", S "tariff", S "FTA", S "SEZ", S "DGFT", S "foreign trade", S "commerce", S "WTO", S "dumping", S "safeguard"]),
  (S "Digital & Technology", [S "digital", S "technology", S "IT", S "software", S "data", S "cyber", S "AI", S "startup", S "fintech", S "e-commerce", S "internet", S "telecom", S "5G", S "semiconductor", S "electronics", S "data centre", S "cloud"]),
  (S "Infrastructure", [S "infrastructure", S "highway", S "road", S "rail", S "railway", S "airport", S "port", S "metro", S "smart city", S "construction", S "PPP", S "NHAI"]),
  (S "Energy & Environment", [S "energy", S "power", S "electricity", S "renewable", S "solar", S "wind", S "oil", S "gas", S "coal", S "green", S "carbon", S "climate", S "environment", S "pollution", S "EV", S "electric vehicle", S "hydrogen"]),
  (S "Labour & Employment", [S "labour", S "labor", S "employment", S "worker", S "wage", S "EPFO", S "ESIC", S "gig", S "contract", S "industrial", S "factory", S "union", S "strike"]),
  (S "Healthcare", [S "health", S "healthcare", S "hospital", S "medical", S "pharma", S "drug", S "PMJAY", S "ayushman", S "insurance", S "FSSAI", S "food safety"]),
  (S "Education", [S "education", S "university", S "school", S "college", S "UGC", S "AICTE", S "NEP", S "skill", S "training", S "NEET", S "JEE", S "IIT", S "IIM"]),
  (S "Agriculture", [S "agriculture", S "farmer", S "farming", S "crop", S "MSP", S "APMC", S "FPO", S "irrigation", S "fertilizer", S "pesticide", S "agri", S "rural"]),
  (S "Corporate & Securities", [S "company", S "corporate", S "IPO", S "stock", S "share", S "equity", S "bond", S "merger", S "acquisition", S "FDI", S "FPI", S "investment", S "PE", S "VC"]),
  (S "Governance & Politics", [S "parliament", S "lok sabha", S "rajya sabha", S "election", S "governor", S "legislation", S "bill", S "act", S "ordinance", S "constitutional", S "CAG"]),
  (S "Civil Liberties", [S "fundamental rights", S "article 19", S "article 21", S "article 14", S "freedom of speech", S "freedom of expression", S "free speech", S "right to protest", S "right to assemble", S "protest ban", S "section 144", S "internet shutdown", S "sedition", S "uapa", S "preventive detention", S "habeas corpus", S "personal liberty", S "custodial death", S "custodial torture", S "nhrc", S "human rights", S "press freedom", S "censorship", S "religious freedom", S "minority rights", S "dissent", S "civil society", S "fcra"])
]

-- PERSON_NAME_PATTERNS[0] title alternatives
def NAME_TITLES : List (List Nat) := [
  S "shri", S "smt", S "mr", S "mrs", S "ms", S "dr", S "prof"
]

-- PERSON_NAME_PATTERNS[1] surname alternatives
def NAME_SURNAMES : List (List Nat) := [
  S "kumar", S "sharma", S "singh", S "gupta", S "patel", S "reddy",
  S "rao", S "iyer", S "nair", S "menon", S "pillai", S "verma",
  S "jain", S "agarwal", S "agrawal", S "joshi", S "mehta", S "shah",
  S "das", S "roy", S "sen", S "bose", S "mukherjee", S "chatterjee",
  S "banerjee"
]

-- ============ data model (policy-keywords.js) ============

/-- Provenance of a keyword entry: which pass detected it. -/
inductive KType where
  | phrase
  | word
  | acronym
deriving DecidableEq, Repr

/-- One entry of the `results` map built by `extractKeywords`. -/
structure Entry where
  keyword : List Nat
  count : Nat
  type : KType
  expansion : Option (List Nat) := none
  category : Option (List Nat) := none
deriving DecidableEq, Repr

/-- The options object of `extractKeywords`, with the source defaults. -/
structure ExtractOptions where
  maxKeywords : Nat := 20
  minWordLength : Nat := 3
  includeCategories : Bool := true
  filterPersonNames : Bool := true
  normalizeSynonyms : Bool := true

/-- `SYNONYMS[k]` (own property lookup). -/
def synLookup (k : List Nat) : Option (List Nat) :=
  (SYNONYMS.find? (fun p => p.1 == k)).map Prod.snd

/-- `ACRONYMS[k]` (own property lookup). -/
def acrLookup (k : List Nat) : Option (List Nat) :=
  (ACRONYMS.find? (fun p => p.1 == k)).map Prod.snd

/-- `STOPWORDS.has(w)`. -/
def isStopword (w : List Nat) : Bool := STOPWORDS.contains w

/-- One term of a category list matches: `lower.includes(term.toLowerCase())
|| term.toLowerCase().includes(lower)`. -/
def termMatches (lower t : List Nat) : Bool :=
  jsIncludes lower (lowerS t) || jsIncludes (lowerS t) lower

/-- The `for (const [category, terms] of Object.entries(KEYWORD_CATEGORIES))`
loop of `categorizeKeyword`. -/
def categorizeGo (lower : List Nat) : List (List Nat × List (List Nat)) → List Nat
  | [] => S "Governance"
  | (cat, terms) :: rest =>
    if terms.any (termMatches lower) then cat else categorizeGo lower rest

/-- `categorizeKeyword(keyword)`: first category (in declaration order) with a
bidirectional substring match against the lower-cased keyword, else the
fallback `'Governance'`. -/
def categorizeKeyword (keyword : List Nat) : List Nat :=
  categorizeGo (lowerS keyword) KEYWORD_CATEGORIES

-- ============ person-name heuristic ============

/-- `PERSON_NAME_PATTERNS[0]` = `/^(shri|smt|mr|mrs|ms|dr|prof)\s+\w+/i`:
a title, at least one whitespace, then a word character. -/
def titleMatch (lw : List Nat) : Bool :=
  NAME_TITLES.any fun p =>
    leadsWith p lw &&
      isWsC ((lw.drop p.length).headD 0) &&
      isWordC (((lw.drop p.length).dropWhile isWsC).headD 0)

/-- `PERSON_NAME_PATTERNS[1]` = `/\w+(kumar|sharma|...)$/i`: the string ends
with one of the surnames, immediately preceded by at least one word
character. -/
def surnameMatch (lw : List Nat) : Bool :=
  NAME_SURNAMES.any fun suf =>
    decide (suf.length < lw.length) &&
    leadsWith suf (lw.drop (lw.length - suf.length)) &&
    isWordC (lw.getD (lw.length - suf.length - 1) 0)

/-- `PERSON_NAME_PATTERNS[2]` = `/^[A-Z][a-z]+$/` (case-sensitive). -/
def capitalizedWordMatch (w : List Nat) : Bool :=
  match w with
  | [] => false
  | c :: rest => isUpperAZ c && !rest.isEmpty && rest.all isLowerAZ

/-- `isPersonName(word)`: some pattern matches (the first two are
case-insensitive, the third is case-sensitive). -/
def isPersonName (w : List Nat) : Bool :=
  titleMatch (lowerS w) || surnameMatch (lowerS w) || capitalizedWordMatch w

/-- `formatKeyword(word)`: keep short all-uppercase words, otherwise
capitalize the first letter and lower-case the rest. -/
def formatKeyword (w : List Nat) : List Nat :=
  if w.length ≤ 4 && w == upperS w then w
  else
    match w with
    | [] => []
    | c :: rest => upperC c :: lowerS rest

-- ============ helper extraction functions ============

/-- `extractPhrases(text)`: for each table phrase, every `indexOf` match
(scanning past each match) pushes the original-case phrase. -/
def extractPhrases (text : List Nat) : List (List Nat) :=
  (POLICY_PHRASES.map fun phrase =>
    List.replicate (scanCount (lowerS phrase) (lowerS text)) phrase).flatten

/-- `isKnownAcronym(text)`. -/
def isKnownAcronym (t : List Nat) : Bool := ACRONYMS.any fun p => p.1 == upperS t

/-- `extractAcronyms(text)`: matches of `/\b([A-Z]{2,6})\b/g` — i.e. maximal
word-character runs that are entirely uppercase letters of length 2 to 6 —
kept when the token is a key of `ACRONYMS`. -/
def extractAcronyms (text : List Nat) : List (List Nat) :=
  (wordRuns text).filter fun r =>
    decide (2 ≤ r.length) && decide (r.length ≤ 6) && r.all isUpperAZ &&
      ((acrLookup r).isSome || isKnownAcronym r)

-- ============ the results map ============

/-- The `results` map: insertion-ordered association list, key → entry. -/
abbrev RMap := List (List Nat × Entry)

/-- `results.has(key)`. -/
def mapHas (m : RMap) (k : List Nat) : Bool := m.any fun p => p.1 == k

/-- `results.get(key).count++`. -/
def mapIncr (m : RMap) (k : List Nat) : RMap :=
  m.map fun p => if p.1 == k then (p.1, { p.2 with count := p.2.count + 1 }) else p

/-- The shared `if (!results.has(key)) results.set(key, entry) else
results.get(key).count++` step. -/
def bump (m : RMap) (k : List Nat) (e : Entry) : RMap :=
  if mapHas m k then mapIncr m k else m ++ [(k, e)]

/-- Synonym normalization of a phrase:
`SYNONYMS[phrase.toLowerCase()] || phrase` when enabled. -/
def normalizePhrase (opts : ExtractOptions) (phrase : List Nat) : List Nat :=
  if opts.normalizeSynonyms then (synLookup (lowerS phrase)).getD phrase else phrase

/-- Synonym normalization of a word token: `SYNONYMS[word] || word` when
enabled (the token is already lower-cased by the word pass). -/
def normalizeWord (opts : ExtractOptions) (w : List Nat) : List Nat :=
  if opts.normalizeSynonyms then (synLookup w).getD w else w

-- ============ pass 1: phrases ============

/-- Body of the `phrases.forEach` loop of `extractKeywords`. -/
def phraseStep (opts : ExtractOptions) (m : RMap) (phrase : List Nat) : RMap :=
  let normalized := normalizePhrase opts phrase
  bump m (lowerS normalized)
    { keyword := normalized, count := 1, type := KType.phrase,
      category := if opts.includeCategories then some (categorizeKeyword normalized) else none }

/-- Pass 1 of `extractKeywords`: fold the phrase matches into the map. -/
def phrasePass (text : List Nat) (opts : ExtractOptions) : RMap :=
  (extractPhrases text).foldl (phraseStep opts) []

-- ============ pass 2: single words ============

/-- The `replace(/[^\w\s-]/g, ' ')` step on one (already lowered) code
point. -/
def cleanC (n : Nat) : Nat := if isWordC n || isWsC n || n == 45 then n else 32

/-- The `words` list of `extractKeywords`: lower-case, replace punctuation by
spaces, split on whitespace, and keep sufficiently long non-stopword
non-numeric tokens. -/
def wordsOf (text : List Nat) (minWordLength : Nat) : List (List Nat) :=
  (splitWs ((lowerS text).map cleanC)).filter fun w =>
    decide (minWordLength ≤ w.length) && !isStopword w && !(!w.isEmpty && w.all isDigitC)

/-- Keywords of the phrase-typed entries currently in the map. -/
def phraseKws (m : RMap) : List (List Nat) :=
  m.filterMap fun p => if p.2.type == KType.phrase then some p.2.keyword else none

/-- `Array.from(results.values()).some(r => r.type === 'phrase' &&
r.keyword.toLowerCase().includes(word))`. -/
def isPartOfPhrase (m : RMap) (w : List Nat) : Bool :=
  (phraseKws m).any fun kw => jsIncludes (lowerS kw) w

/-- Body of the `words.forEach` loop of `extractKeywords`. -/
def wordStep (opts : ExtractOptions) (m : RMap) (w : List Nat) : RMap :=
  if isPartOfPhrase m w then m
  else if opts.filterPersonNames && isPersonName w then m
  else
    let normalized := normalizeWord opts w
    bump m (lowerS normalized)
      { keyword := formatKeyword normalized, count := 1, type := KType.word,
        category := if opts.includeCategories then some (categorizeKeyword normalized) else none }

/-- Pass 2 of `extractKeywords`. -/
def wordPass (text : List Nat) (opts : ExtractOptions) (m : RMap) : RMap :=
  (wordsOf text opts.minWordLength).foldl (wordStep opts) m

-- ============ pass 3: acronyms ============

/-- Body of the `acronyms.forEach` loop of `extractKeywords`. -/
def acronymStep (opts : ExtractOptions) (m : RMap) (acr : List Nat) : RMap :=
  bump m (lowerS acr)
    { keyword := acr, count := 1, type := KType.acronym,
      expansion := acrLookup acr,
      category := if opts.includeCategories then some (categorizeKeyword acr) else none }

/-- Pass 3 of `extractKeywords`. -/
def acronymPass (text : List Nat) (opts : ExtractOptions) (m : RMap) : RMap :=
  (extractAcronyms text).foldl (acronymStep opts) m

-- ============ main function ============

/-- `Array.from(results.values())` after the three passes, in insertion
order. -/
def rawEntries (text : List Nat) (opts : ExtractOptions) : List Entry :=
  (acronymPass text opts (wordPass text opts (phrasePass text opts))).map Prod.snd

/-- The comparator `(a, b) => b.count - a.count` orders `a` before `b`
exactly when `b.count ≤ a.count`; `Array.prototype.sort` is stable. -/
def countGE (a b : Entry) : Prop := b.count ≤ a.count

instance : DecidableRel countGE := fun a b => Nat.decLe b.count a.count

/-- `extractKeywords(text, options)` on a (non-empty string) text: run the
three passes, sort the collected entries by descending count (stable), and
take the first `maxKeywords`. -/
def extractKeywords (text : List Nat) (opts : ExtractOptions) : List Entry :=
  (List.insertionSort countGE (rawEntries text opts)).take opts.maxKeywords

/-- A JavaScript value passed as the `text` argument. -/
inductive JSValue where
  | str (s : String)
  | null
  | undef
  | num (n : Int)
  | boolean (b : Bool)
  | obj
deriving DecidableEq

/-- The full `extractKeywords` including the
`if (!text || typeof text !== 'string') return []` guard: any non-string,
and the empty string (the only falsy string), yield `[]`. -/
def extractKeywordsJS (v : JSValue) (opts : ExtractOptions) : List Entry :=
  match v with
  | JSValue.str s => if s = "" then [] else extractKeywords (S s) opts
  | _ => []

-- ============ general lemmas about the engine ============

/-- The count-independent data of an entry. -/
def metaOf (e : Entry) : List Nat × KType × Option (List Nat) × Option (List Nat) :=
  (e.keyword, e.type, e.expansion, e.category)

theorem mem_mapIncr {m : RMap} {k0 k : List Nat} {e : Entry}
    (h : (k, e) ∈ mapIncr m k0) : ∃ e', (k, e') ∈ m ∧ metaOf e = metaOf e' := by
  rw [mapIncr, List.mem_map] at h
  obtain ⟨⟨k', e'⟩, hmem, heq⟩ := h
  by_cases hk : (k' == k0) = true
  · rw [if_pos hk] at heq
    cases heq
    exact ⟨e', hmem, rfl⟩
  · rw [if_neg hk] at heq
    cases heq
    exact ⟨e, hmem, rfl⟩

theorem mem_bump {m : RMap} {k0 k : List Nat} {e0 e : Entry}
    (h : (k, e) ∈ bump m k0 e0) :
    (∃ e', (k, e') ∈ m ∧ metaOf e = metaOf e') ∨ (k = k0 ∧ e = e0) := by
  rw [bump] at h
  by_cases hh : mapHas m k0 = true
  · rw [if_pos hh] at h
    exact Or.inl (mem_mapIncr h)
  · rw [if_neg hh] at h
    rcases List.mem_append.mp h with h1 | h1
    · exact Or.inl ⟨e, h1, rfl⟩
    · simp only [List.mem_singleton, Prod.mk.injEq] at h1
      exact Or.inr h1

-- ============ entry builders (the literals each pass inserts) ============

/-- The entry the phrase pass inserts for a fresh phrase. -/
def phraseEntryOf (opts : ExtractOptions) (phrase : List Nat) : Entry :=
  { keyword := normalizePhrase opts phrase, count := 1, type := KType.phrase,
    category := if opts.includeCategories
      then some (categorizeKeyword (normalizePhrase opts phrase)) else none }

theorem phraseStep_eq (opts : ExtractOptions) (m : RMap) (phrase : List Nat) :
    phraseStep opts m phrase =
      bump m (lowerS (normalizePhrase opts phrase)) (phraseEntryOf opts phrase) := rfl

/-- The entry the word pass inserts for a fresh word token. -/
def wordEntryOf (opts : ExtractOptions) (w : List Nat) : Entry :=
  { keyword := formatKeyword (normalizeWord opts w), count := 1, type := KType.word,
    category := if opts.includeCategories
      then some (categorizeKeyword (normalizeWord opts w)) else none }

/-- The entry the acronym pass inserts for a fresh acronym. -/
def acronymEntryOf (opts : ExtractOptions) (acr : List Nat) : Entry :=
  { keyword := acr, count := 1, type := KType.acronym, expansion := acrLookup acr,
    category := if opts.includeCategories then some (categorizeKeyword acr) else none }

theorem acronymStep_eq (opts : ExtractOptions) (m : RMap) (acr : List Nat) :
    acronymStep opts m acr = bump m (lowerS acr) (acronymEntryOf opts acr) := rfl

-- ============ origin of entries: phrase pass ============

theorem mem_foldl_phraseStep (opts : ExtractOptions) :
    ∀ (l : List (List Nat)) (m : RMap) (k : List Nat) (e : Entry),
      (k, e) ∈ l.foldl (phraseStep opts) m →
      (∃ e', (k, e') ∈ m ∧ metaOf e = metaOf e') ∨
      ∃ p ∈ l, k = lowerS (normalizePhrase opts p) ∧ metaOf e = metaOf (phraseEntryOf opts p) := by
  intro l
  induction l with
  | nil => intro m k e h; exact Or.inl ⟨e, h, rfl⟩
  | cons p t ih =>
    intro m k e h
    rcases ih (phraseStep opts m p) k e h with h1 | ⟨q, hq, hk, hm⟩
    · obtain ⟨e', he', hmeta⟩ := h1
      rw [phraseStep_eq] at he'
      rcases mem_bump he' with ⟨e'', he'', hmeta'⟩ | ⟨hk, he⟩
      · exact Or.inl ⟨e'', he'', hmeta.trans hmeta'⟩
      · subst he
        exact Or.inr ⟨p, List.mem_cons_self p t, hk, hmeta⟩
    · exact Or.inr ⟨q, List.mem_cons_of_mem p hq, hk, hm⟩

theorem mem_phrasePass {text : List Nat} {opts : ExtractOptions} {k : List Nat} {e : Entry}
    (h : (k, e) ∈ phrasePass text opts) :
    ∃ p ∈ extractPhrases text,
      k = lowerS (normalizePhrase opts p) ∧ metaOf e = metaOf (phraseEntryOf opts p) := by
  rcases mem_foldl_phraseStep opts (extractPhrases text) [] k e h with ⟨e', he', _⟩ | h2
  · cases he'
  · exact h2

theorem type_of_mem_phrasePass {text : List Nat} {opts : ExtractOptions} {k : List Nat}
    {e : Entry} (h : (k, e) ∈ phrasePass text opts) : e.type = KType.phrase := by
  obtain ⟨p, _, _, hm⟩ := mem_phrasePass h
  exact congrArg (fun x => x.2.1) hm

-- ============ phrase-typed keywords are stable under later passes ============

theorem phraseKws_mapIncr (m : RMap) (k : List Nat) :
    phraseKws (mapIncr m k) = phraseKws m := by
  rw [phraseKws, mapIncr, List.filterMap_map, phraseKws]
  apply List.filterMap_congr
  intro p _
  by_cases hk : (p.1 == k) = true <;> simp [hk, Function.comp]

theorem phraseKws_append (m l : RMap) : phraseKws (m ++ l) = phraseKws m ++ phraseKws l :=
  List.filterMap_append m l _

theorem phraseKws_bump_of_not_phrase {e0 : Entry} (m : RMap) (k : List Nat)
    (h : e0.type ≠ KType.phrase) : phraseKws (bump m k e0) = phraseKws m := by
  rw [bump]
  split
  · exact phraseKws_mapIncr m k
  · have h2 : phraseKws [(k, e0)] = [] := by
      simp [phraseKws, h]
    rw [phraseKws_append, h2, List.append_nil]

theorem phraseKws_wordStep (opts : ExtractOptions) (m : RMap) (w : List Nat) :
    phraseKws (wordStep opts m w) = phraseKws m := by
  rw [wordStep]
  split
  · rfl
  · split
    · rfl
    · exact phraseKws_bump_of_not_phrase m _ (by intro hc; cases hc)

theorem isPartOfPhrase_congr {m m' : RMap} (h : phraseKws m = phraseKws m') (w : List Nat) :
    isPartOfPhrase m w = isPartOfPhrase m' w := by
  rw [isPartOfPhrase, isPartOfPhrase, h]

-- ============ origin of entries: word pass ============

theorem mem_foldl_wordStep (opts : ExtractOptions) :
    ∀ (l : List (List Nat)) (m : RMap) (k : List Nat) (e : Entry),
      (k, e) ∈ l.foldl (wordStep opts) m →
      (∃ e', (k, e') ∈ m ∧ metaOf e = metaOf e') ∨
      ∃ w ∈ l, isPartOfPhrase m w = false ∧
        (opts.filterPersonNames && isPersonName w) = false ∧
        k = lowerS (normalizeWord opts w) ∧ metaOf e = metaOf (wordEntryOf opts w) := by
  intro l
  induction l with
  | nil => intro m k e h; exact Or.inl ⟨e, h, rfl⟩
  | cons w t ih =>
    intro m k e h
    have hkws : phraseKws (wordStep opts m w) = phraseKws m := phraseKws_wordStep opts m w
    rcases ih (wordStep opts m w) k e h with h1 | ⟨w', hw', hg1, hg2, hk, hm⟩
    · obtain ⟨e', he', hmeta⟩ := h1
      rw [wordStep] at he'
      by_cases hph : isPartOfPhrase m w = true
      · rw [if_pos hph] at he'
        exact Or.inl ⟨e', he', hmeta⟩
      · rw [if_neg hph] at he'
        by_cases hpn : (opts.filterPersonNames && isPersonName w) = true
        · rw [if_pos hpn] at he'
          exact Or.inl ⟨e', he', hmeta⟩
        · rw [if_neg hpn] at he'
          rcases mem_bump he' with ⟨e'', he'', hmeta'⟩ | ⟨hk, he⟩
          · exact Or.inl ⟨e'', he'', hmeta.trans hmeta'⟩
          · subst he
            exact Or.inr ⟨w, List.mem_cons_self w t,
              Bool.eq_false_iff.mpr hph, Bool.eq_false_iff.mpr hpn, hk, hmeta⟩
    · rw [isPartOfPhrase_congr hkws w'] at hg1
      exact Or.inr ⟨w', List.mem_cons_of_mem w hw', hg1, hg2, hk, hm⟩

theorem mem_wordPass {text : List Nat} {opts : ExtractOptions} {m : RMap} {k : List Nat}
    {e : Entry} (h : (k, e) ∈ wordPass text opts m) :
    (∃ e', (k, e') ∈ m ∧ metaOf e = metaOf e') ∨
    ∃ w ∈ wordsOf text opts.minWordLength, isPartOfPhrase m w = false ∧
      (opts.filterPersonNames && isPersonName w) = false ∧
      k = lowerS (normalizeWord opts w) ∧ metaOf e = metaOf (wordEntryOf opts w) :=
  mem_foldl_wordStep opts (wordsOf text opts.minWordLength) m k e h

-- ============ origin of entries: acronym pass ============

theorem mem_foldl_acronymStep (opts : ExtractOptions) :
    ∀ (l : List (List Nat)) (m : RMap) (k : List Nat) (e : Entry),
      (k, e) ∈ l.foldl (acronymStep opts) m →
      (∃ e', (k, e') ∈ m ∧ metaOf e = metaOf e') ∨
      ∃ a ∈ l, k = lowerS a ∧ metaOf e = metaOf (acronymEntryOf opts a) := by
  intro l
  induction l with
  | nil => intro m k e h; exact Or.inl ⟨e, h, rfl⟩
  | cons a t ih =>
    intro m k e h
    rcases ih (acronymStep opts m a) k e h with h1 | ⟨a', ha', hk, hm⟩
    · obtain ⟨e', he', hmeta⟩ := h1
      rw [acronymStep_eq] at he'
      rcases mem_bump he' with ⟨e'', he'', hmeta'⟩ | ⟨hk, he⟩
      · exact Or.inl ⟨e'', he'', hmeta.trans hmeta'⟩
      · subst he
        exact Or.inr ⟨a, List.mem_cons_self a t, hk, hmeta⟩
    · exact Or.inr ⟨a', List.mem_cons_of_mem a ha', hk, hm⟩

theorem mem_acronymPass {text : List Nat} {opts : ExtractOptions} {m : RMap} {k : List Nat}
    {e : Entry} (h : (k, e) ∈ acronymPass text opts m) :
    (∃ e', (k, e') ∈ m ∧ metaOf e = metaOf e') ∨
    ∃ a ∈ extractAcronyms text, k = lowerS a ∧ metaOf e = metaOf (acronymEntryOf opts a) :=
  mem_foldl_acronymStep opts (extractAcronyms text) m k e h

-- ============ from the final list back to the map ============

/-- The final results map of one extraction call. -/
def finalMap (text : List Nat) (opts : ExtractOptions) : RMap :=
  acronymPass text opts (wordPass text opts (phrasePass text opts))

theorem mem_of_mem_extractKeywords {text : List Nat} {opts : ExtractOptions} {e : Entry}
    (h : e ∈ extractKeywords text opts) : ∃ k, (k, e) ∈ finalMap text opts := by
  rw [extractKeywords] at h
  have h2 : e ∈ List.insertionSort countGE (rawEntries text opts) :=
    (List.take_sublist _ _).mem h
  have h3 : e ∈ rawEntries text opts := (List.mem_insertionSort countGE).mp h2
  rw [rawEntries, List.mem_map] at h3
  obtain ⟨⟨k, e'⟩, hmem, heq⟩ := h3
  cases heq
  exact ⟨k, hmem⟩

-- ============ projections of meta equality ============

theorem keyword_of_metaOf {a b : Entry} (h : metaOf a = metaOf b) : a.keyword = b.keyword :=
  congrArg Prod.fst h

theorem type_of_metaOf {a b : Entry} (h : metaOf a = metaOf b) : a.type = b.type :=
  congrArg (fun x => x.2.1) h

theorem expansion_of_metaOf {a b : Entry} (h : metaOf a = metaOf b) :
    a.expansion = b.expansion :=
  congrArg (fun x => x.2.2.1) h

-- ============ claim theorems C1, C2, C3 ============

/-- Claim C1 (counterexample): in the text "Reserve Bank of India", the
phrase "Reserve Bank of India" is matched by the phrase pass and the word
"reserve" is one of its constituent words, yet the extraction result
contains an independent word-typed entry "Reserve" — because synonym
normalization replaced the phrase keyword by "RBI", which no longer contains
the token "reserve". -/
theorem claim_C1_counterexample :
    (S "Reserve Bank of India") ∈ extractPhrases (S "Reserve Bank of India") ∧
    (S "reserve") ∈ splitWs (lowerS (S "Reserve Bank of India")) ∧
    extractKeywords (S "Reserve Bank of India") {} =
      [{ keyword := S "RBI", count := 1, type := KType.phrase,
         category := some (S "Finance & Banking") },
       { keyword := S "Reserve", count := 1, type := KType.word,
         category := some (S "Governance") }] := by
  refine ⟨by decide, by decide, by decide⟩

/-- Claim C1 (amended): the word pass suppresses a token only when the token
is a substring of the synonym-normalized keyword of some phrase-typed entry;
every word-typed entry of the result comes from a token that no
phrase-pass entry's normalized keyword contains. -/
theorem claim_C1_amended (text : List Nat) (opts : ExtractOptions) (e : Entry)
    (he : e ∈ extractKeywords text opts) (ht : e.type = KType.word) :
    ∃ w ∈ wordsOf text opts.minWordLength,
      isPartOfPhrase (phrasePass text opts) w = false ∧
      (opts.filterPersonNames && isPersonName w) = false ∧
      e.keyword = formatKeyword (normalizeWord opts w) := by
  obtain ⟨k, hk⟩ := mem_of_mem_extractKeywords he
  rcases mem_acronymPass hk with ⟨e', he', hmeta⟩ | ⟨a, _, _, hm⟩
  · rcases mem_wordPass he' with ⟨e'', he'', hmeta'⟩ | ⟨w, hw, hg1, hg2, _, hm⟩
    · have hph := type_of_mem_phrasePass he''
      have hcontra : KType.word = KType.phrase := by
        rw [← ht]
        exact (type_of_metaOf hmeta).trans ((type_of_metaOf hmeta').trans hph)
      cases hcontra
    · refine ⟨w, hw, hg1, hg2, ?_⟩
      exact (keyword_of_metaOf hmeta).trans (keyword_of_metaOf hm)
  · have hcontra : KType.word = KType.acronym := by
      rw [← ht]
      exact type_of_metaOf hm
    cases hcontra

/-- Claim C1 (witness for the amended theorem), at the text
"Reserve Bank of India" and its word-typed entry "Reserve". -/
theorem claim_C1_amended_witness :
    ({ keyword := S "Reserve", count := 1, type := KType.word,
       category := some (S "Governance") } : Entry)
        ∈ extractKeywords (S "Reserve Bank of India") {} ∧
    ∃ w ∈ wordsOf (S "Reserve Bank of India") (({} : ExtractOptions)).minWordLength,
      isPartOfPhrase (phrasePass (S "Reserve Bank of India") {}) w = false ∧
      (({} : ExtractOptions).filterPersonNames && isPersonName w) = false ∧
      ({ keyword := S "Reserve", count := 1, type := KType.word,
         category := some (S "Governance") } : Entry).keyword
        = formatKeyword (normalizeWord {} w) :=
  ⟨by decide, claim_C1_amended (S "Reserve Bank of India") {} _ (by decide) rfl⟩

/-- Claim C2 (counterexample): the passes run phrase, then word, then
acronym — not phrase, acronym, word.  "CCI" is an uppercase token of length
2-6 that is a key of the acronym table, yet extraction of the text "CCI"
yields a word-typed entry "Cci" with no expansion (the acronym pass merely
increments the word pass's entry). -/
theorem claim_C2_counterexample :
    (S "CCI") ∈ extractAcronyms (S "CCI") ∧
    acrLookup (S "CCI") = some (S "Competition Commission of India") ∧
    extractKeywords (S "CCI") {} =
      [{ keyword := S "Cci", count := 2, type := KType.word,
         category := some (S "Governance") }] := by
  refine ⟨by decide, by decide, by decide⟩

/-- Claim C2 (amended): passes run phrase, then word, then acronym.  An
acronym-typed entry arises exactly from an acronym-pass token whose key was
not already claimed by an earlier pass, and it carries the table expansion;
e.g. the text "PE" (whose lowercase form is shorter than `minWordLength`)
yields an acronym-typed entry with expansion "Private Equity". -/
theorem claim_C2_amended :
    (∀ (text : List Nat) (opts : ExtractOptions) (e : Entry),
        e ∈ extractKeywords text opts → e.type = KType.acronym →
        ∃ a ∈ extractAcronyms text, e.keyword = a ∧ e.expansion = acrLookup a) ∧
    extractKeywords (S "PE") {} =
      [{ keyword := S "PE", count := 1, type := KType.acronym,
         expansion := some (S "Private Equity"), category := some (S "Agriculture") }] := by
  constructor
  · intro text opts e he ht
    obtain ⟨k, hk⟩ := mem_of_mem_extractKeywords he
    rcases mem_acronymPass hk with ⟨e', he', hmeta⟩ | ⟨a, ha, _, hm⟩
    · rcases mem_wordPass he' with ⟨e'', he'', hmeta'⟩ | ⟨w, _, _, _, _, hm⟩
      · have hph := type_of_mem_phrasePass he''
        have hcontra : KType.acronym = KType.phrase := by
          rw [← ht]
          exact (type_of_metaOf hmeta).trans ((type_of_metaOf hmeta').trans hph)
        cases hcontra
      · have hcontra : KType.acronym = KType.word := by
          rw [← ht]
          exact (type_of_metaOf hmeta).trans (type_of_metaOf hm)
        cases hcontra
    · exact ⟨a, ha, keyword_of_metaOf hm, expansion_of_metaOf hm⟩
  · decide

/-- Claim C2 (witness for the amended theorem), at the text "PE". -/
theorem claim_C2_amended_witness :
    ({ keyword := S "PE", count := 1, type := KType.acronym,
       expansion := some (S "Private Equity"), category := some (S "Agriculture") } : Entry)
        ∈ extractKeywords (S "PE") {} ∧
    ∃ a ∈ extractAcronyms (S "PE"),
      ({ keyword := S "PE", count := 1, type := KType.acronym,
         expansion := some (S "Private Equity"),
         category := some (S "Agriculture") } : Entry).keyword = a ∧
      ({ keyword := S "PE", count := 1, type := KType.acronym,
         expansion := some (S "Private Equity"),
         category := some (S "Agriculture") } : Entry).expansion = acrLookup a :=
  ⟨by decide, claim_C2_amended.1 (S "PE") {} _ (by decide) rfl⟩

/-- Claim C3 (counterexample): acronym-pass terms are not looked up in the
synonym map.  The text "DPDP" produces two entries — a word-typed entry
keyed by the synonym-canonical form "dpdp act" and an acronym-typed entry
keyed by the raw "dpdp" — even though "dpdp" is a key of the synonym map
with canonical form "DPDP Act". -/
theorem claim_C3_counterexample :
    synLookup (S "dpdp") = some (S "DPDP Act") ∧
    extractKeywords (S "DPDP") {} =
      [{ keyword := S "Dpdp act", count := 1, type := KType.word,
         category := some (S "Governance & Politics") },
       { keyword := S "DPDP", count := 1, type := KType.acronym,
         expansion := some (S "Digital Personal Data Protection"),
         category := some (S "Governance") }] := by
  refine ⟨by decide, by decide⟩

/-- Claim C3 (amended): with synonym normalization enabled, phrase-pass terms
(and word-pass terms) are looked up in the synonym map, with the canonical
form used as keyword and dedup key — acronym-pass terms are keyed by their
lowercase form without a synonym lookup.  For the text
"Reserve Bank of India and RBI" the result has exactly one entry for the
concept, keyed "rbi", with combined count 3 ≥ 2. -/
theorem claim_C3_amended :
    (∀ (text : List Nat) (opts : ExtractOptions) (e : Entry),
        e ∈ extractKeywords text opts → e.type = KType.phrase →
        opts.normalizeSynonyms = true →
        ∃ p ∈ extractPhrases text, e.keyword = (synLookup (lowerS p)).getD p) ∧
    extractKeywords (S "Reserve Bank of India and RBI") {} =
      [{ keyword := S "RBI", count := 3, type := KType.phrase,
         category := some (S "Finance & Banking") },
       { keyword := S "Reserve", count := 1, type := KType.word,
         category := some (S "Governance") }] := by
  constructor
  · intro text opts e he ht hsyn
    obtain ⟨k, hk⟩ := mem_of_mem_extractKeywords he
    rcases mem_acronymPass hk with ⟨e', he', hmeta⟩ | ⟨a, _, _, hm⟩
    · rcases mem_wordPass he' with ⟨e'', he'', hmeta'⟩ | ⟨w, _, _, _, _, hm⟩
      · obtain ⟨p, hp, _, hm⟩ := mem_phrasePass he''
        refine ⟨p, hp, ?_⟩
        have hkw := (keyword_of_metaOf hmeta).trans
          ((keyword_of_metaOf hmeta').trans (keyword_of_metaOf hm))
        rw [hkw]
        show normalizePhrase opts p = _
        rw [normalizePhrase, if_pos hsyn]
      · have hcontra : KType.phrase = KType.word := by
          rw [← ht]
          exact (type_of_metaOf hmeta).trans (type_of_metaOf hm)
        cases hcontra
    · have hcontra : KType.phrase = KType.acronym := by
        rw [← ht]
        exact type_of_metaOf hm
      cases hcontra
  · decide

/-- Claim C3 (witness for the amended theorem), at the text
"Reserve Bank of India and RBI" and its phrase-typed entry "RBI". -/
theorem claim_C3_amended_witness :
    ({ keyword := S "RBI", count := 3, type := KType.phrase,
       category := some (S "Finance & Banking") } : Entry)
        ∈ extractKeywords (S "Reserve Bank of India and RBI") {} ∧
    ∃ p ∈ extractPhrases (S "Reserve Bank of India and RBI"),
      ({ keyword := S "RBI", count := 3, type := KType.phrase,
         category := some (S "Finance & Banking") } : Entry).keyword
        = (synLookup (lowerS p)).getD p :=
  ⟨by decide, claim_C3_amended.1 (S "Reserve Bank of India and RBI") {} _ (by decide) rfl rfl⟩

-- ============ claim C4: categorization ============

/-- Claim C4 (counterexample): the keyword "zzz" matches no category term
list, and `categorizeKeyword` returns the fallback "Governance" — not
"General" as the claim states. -/
theorem claim_C4_counterexample :
    (KEYWORD_CATEGORIES.all fun p => !(p.2.any (termMatches (lowerS (S "zzz"))))) = true ∧
    categorizeKeyword (S "zzz") = S "Governance" ∧
    S "Governance" ≠ S "General" := by
  refine ⟨by decide, by decide, by decide⟩

/-- Modelled from the spec's description of categorization ("assigned by
substring match against category term lists, first match wins in
table-declaration order", with a total fallback — which the source fixes as
"Governance"): the first category whose term list has a bidirectional
substring match, else the fallback. -/
def categorizeKeywordSpec (kw : List Nat) : List Nat :=
  ((KEYWORD_CATEGORIES.find? fun p => p.2.any (termMatches (lowerS kw))).map
    Prod.fst).getD (S "Governance")

theorem categorizeGo_eq_find (lower : List Nat) :
    ∀ l : List (List Nat × List (List Nat)),
      categorizeGo lower l
        = ((l.find? fun p => p.2.any (termMatches lower)).map Prod.fst).getD (S "Governance") := by
  intro l
  induction l with
  | nil => rfl
  | cons p t ih =>
    obtain ⟨cat, terms⟩ := p
    by_cases h : (terms.any (termMatches lower)) = true
    · have h' : (fun q : List Nat × List (List Nat) => q.2.any (termMatches lower)) (cat, terms)
          = true := h
      rw [categorizeGo, if_pos h, List.find?_cons_of_pos t h']
      rfl
    · have h' : ¬(fun q : List Nat × List (List Nat) => q.2.any (termMatches lower)) (cat, terms)
          = true := h
      rw [categorizeGo, if_neg h, List.find?_cons_of_neg t h', ih]

/-- Claim C4 (amended): `categorizeKeyword` is a total function computing
exactly the first-match-in-declaration-order bidirectional substring
categorization, with the defined fallback "Governance" (not "General") for
keywords matching no term list. -/
theorem claim_C4_amended (kw : List Nat) : categorizeKeyword kw = categorizeKeywordSpec kw :=
  categorizeGo_eq_find (lowerS kw) KEYWORD_CATEGORIES

-- ============ claim C5: malformed input ============

/-- Claim C5: for every malformed input — `null`, `undefined`, a number, a
boolean, an object (all the non-string values), or the empty string — and
for every options value, `extractKeywords` returns the empty list. -/
theorem claim_C5 (opts : ExtractOptions) (n : Int) (b : Bool) :
    extractKeywordsJS JSValue.null opts = [] ∧
    extractKeywordsJS JSValue.undef opts = [] ∧
    extractKeywordsJS (JSValue.num n) opts = [] ∧
    extractKeywordsJS (JSValue.boolean b) opts = [] ∧
    extractKeywordsJS JSValue.obj opts = [] ∧
    extractKeywordsJS (JSValue.str "") opts = [] := by
  refine ⟨rfl, rfl, rfl, rfl, rfl, ?_⟩
  simp [extractKeywordsJS]

-- ============ claim C8: acronym case sensitivity ============

/-- Claim C8: acronym detection operates on the original-case text and is
case-sensitive — every token `extractAcronyms` produces consists of
uppercase letters only, so the lowercase word "rbi" never triggers it, while
the uppercase token "RBI" does. -/
theorem claim_C8 (text : List Nat) :
    ((extractAcronyms text).all fun a => a.all isUpperAZ) = true ∧
    (S "rbi") ∉ extractAcronyms text ∧
    extractAcronyms (S "The rbi announced a cut") = [] ∧
    extractAcronyms (S "The RBI announced a cut") = [S "RBI"] := by
  have hall : ((extractAcronyms text).all fun a => a.all isUpperAZ) = true := by
    rw [List.all_eq_true]
    intro a ha
    rw [extractAcronyms, List.mem_filter] at ha
    have h := ha.2
    simp only [Bool.and_eq_true] at h
    exact h.1.2
  refine ⟨hall, ?_, by decide, by decide⟩
  intro hmem
  have h2 := List.all_eq_true.mp hall _ hmem
  exact absurd h2 (by decide)

-- ============ claim C10: no word-boundary check in phrase matching ============

/-- Claim C10: phrase matching is raw case-insensitive substring search with
no word-boundary check.  The text "important" contains the phrase-table
entry "Port" only as an internal substring of the single word "important",
yet the phrase pass matches it and extraction produces a phrase-typed entry
"Port". -/
theorem claim_C10 :
    (S "port") ∈ POLICY_PHRASES.map lowerS ∧
    splitWs (S "important") = [S "important"] ∧
    extractPhrases (S "important") = [S "Port"] ∧
    extractKeywords (S "important") {} =
      [{ keyword := S "Port", count := 1, type := KType.phrase,
         category := some (S "Trade & Commerce") },
       { keyword := S "Important", count := 1, type := KType.word,
         category := some (S "Trade & Commerce") }] := by
  refine ⟨by decide, by decide, by decide, by decide⟩

-- ============ ASCII case lemmas ============

theorem isUpperAZ_iff (n : Nat) : isUpperAZ n = true ↔ 65 ≤ n ∧ n ≤ 90 := by
  simp [isUpperAZ]

theorem isLowerAZ_iff (n : Nat) : isLowerAZ n = true ↔ 97 ≤ n ∧ n ≤ 122 := by
  simp [isLowerAZ]

theorem lowerC_of_upper {n : Nat} (h : 65 ≤ n ∧ n ≤ 90) : lowerC n = n + 32 := by
  rw [lowerC, if_pos ((isUpperAZ_iff n).mpr h)]

theorem lowerC_of_not_upper {n : Nat} (h : ¬(65 ≤ n ∧ n ≤ 90)) : lowerC n = n := by
  rw [lowerC, if_neg (fun hc => h ((isUpperAZ_iff n).mp hc))]

theorem upperC_of_lower {n : Nat} (h : 97 ≤ n ∧ n ≤ 122) : upperC n = n - 32 := by
  rw [upperC, if_pos ((isLowerAZ_iff n).mpr h)]

theorem upperC_of_not_lower {n : Nat} (h : ¬(97 ≤ n ∧ n ≤ 122)) : upperC n = n := by
  rw [upperC, if_neg (fun hc => h ((isLowerAZ_iff n).mp hc))]

theorem lowerC_lowerC (n : Nat) : lowerC (lowerC n) = lowerC n := by
  by_cases h : 65 ≤ n ∧ n ≤ 90
  · rw [lowerC_of_upper h, lowerC_of_not_upper (by omega)]
  · rw [lowerC_of_not_upper h, lowerC_of_not_upper h]

theorem lowerC_upperC (n : Nat) : lowerC (upperC n) = lowerC n := by
  by_cases h : 97 ≤ n ∧ n ≤ 122
  · rw [upperC_of_lower h, lowerC_of_upper (by omega), lowerC_of_not_upper (by omega)]
    omega
  · rw [upperC_of_not_lower h]

theorem lowerS_lowerS (s : List Nat) : lowerS (lowerS s) = lowerS s := by
  rw [lowerS, lowerS, List.map_map]
  exact List.map_congr_left fun a _ => lowerC_lowerC a

theorem lowerS_formatKeyword (x : List Nat) : lowerS (formatKeyword x) = lowerS x := by
  rw [formatKeyword.eq_def]
  split
  · rfl
  · cases x with
    | nil => rfl
    | cons c rest =>
      show lowerS (upperC c :: lowerS rest) = lowerS (c :: rest)
      simp only [lowerS, List.map_cons, List.map_map]
      rw [lowerC_upperC]
      exact congrArg _ (List.map_congr_left fun a _ => lowerC_lowerC a)

-- ============ key discipline of the results map (for C9) ============

/-- The two invariants of the results map: the keys are pairwise distinct,
and each key is the lower-cased keyword of its entry. -/
def goodMap (m : RMap) : Prop :=
  (m.map Prod.fst).Nodup ∧ ∀ p ∈ m, p.1 = lowerS p.2.keyword

theorem map_fst_mapIncr (m : RMap) (k : List Nat) :
    (mapIncr m k).map Prod.fst = m.map Prod.fst := by
  rw [mapIncr, List.map_map]
  apply List.map_congr_left
  intro p _
  by_cases hqk : (p.1 == k) = true <;> simp [hqk, Function.comp]

theorem mapHas_of_mem_keys {m : RMap} {k : List Nat} (h : k ∈ m.map Prod.fst) :
    mapHas m k = true := by
  rw [List.mem_map] at h
  obtain ⟨p, hp, hk⟩ := h
  rw [mapHas, List.any_eq_true]
  exact ⟨p, hp, beq_iff_eq.mpr hk⟩

theorem goodMap_bump {m : RMap} {k : List Nat} {e0 : Entry} (hg : goodMap m)
    (hk : k = lowerS e0.keyword) : goodMap (bump m k e0) := by
  rw [bump]
  split
  · refine ⟨?_, ?_⟩
    · rw [map_fst_mapIncr]
      exact hg.1
    · intro p hp
      rw [mapIncr, List.mem_map] at hp
      obtain ⟨q, hq, hfq⟩ := hp
      by_cases hqk : (q.1 == k) = true
      · rw [if_pos hqk] at hfq
        subst hfq
        exact hg.2 q hq
      · rw [if_neg hqk] at hfq
        subst hfq
        exact hg.2 q hq
  · next hhas =>
    refine ⟨?_, ?_⟩
    · rw [List.map_append]
      refine List.Nodup.append hg.1 (List.nodup_singleton k) ?_
      intro a ha hb
      simp only [List.map_cons, List.map_nil, List.mem_singleton] at hb
      subst hb
      exact hhas (mapHas_of_mem_keys ha)
    · intro p hp
      rcases List.mem_append.mp hp with h1 | h1
      · exact hg.2 p h1
      · rw [List.mem_singleton] at h1
        subst h1
        exact hk

theorem goodMap_foldl {α : Type} {step : RMap → α → RMap}
    (hstep : ∀ m x, goodMap m → goodMap (step m x)) :
    ∀ (l : List α) (m : RMap), goodMap m → goodMap (l.foldl step m) := by
  intro l
  induction l with
  | nil => intro m h; exact h
  | cons x t ih => intro m h; exact ih _ (hstep m x h)

theorem goodMap_phraseStep (opts : ExtractOptions) (m : RMap) (p : List Nat)
    (hg : goodMap m) : goodMap (phraseStep opts m p) := by
  rw [phraseStep_eq]
  exact goodMap_bump hg rfl

theorem goodMap_wordStep (opts : ExtractOptions) (m : RMap) (w : List Nat)
    (hg : goodMap m) : goodMap (wordStep opts m w) := by
  rw [wordStep]
  split
  · exact hg
  · split
    · exact hg
    · exact goodMap_bump hg (lowerS_formatKeyword (normalizeWord opts w)).symm

theorem goodMap_acronymStep (opts : ExtractOptions) (m : RMap) (a : List Nat)
    (hg : goodMap m) : goodMap (acronymStep opts m a) := by
  rw [acronymStep_eq]
  exact goodMap_bump hg rfl

theorem goodMap_nil : goodMap [] := ⟨List.nodup_nil, fun p hp => absurd hp (List.not_mem_nil p)⟩

theorem goodMap_finalMap (text : List Nat) (opts : ExtractOptions) :
    goodMap (finalMap text opts) := by
  rw [finalMap, acronymPass, wordPass, phrasePass]
  exact goodMap_foldl (goodMap_acronymStep opts) _ _
    (goodMap_foldl (goodMap_wordStep opts) _ _
      (goodMap_foldl (goodMap_phraseStep opts) _ _ goodMap_nil))

theorem rawEntries_keys (text : List Nat) (opts : ExtractOptions) :
    (rawEntries text opts).map (fun e => lowerS e.keyword) = (finalMap text opts).map Prod.fst := by
  have hg := goodMap_finalMap text opts
  show ((finalMap text opts).map Prod.snd).map (fun e => lowerS e.keyword) = _
  rw [List.map_map]
  exact List.map_congr_left fun p hp => (hg.2 p hp).symm

/-- Claim C9: within one extraction call's result, the post-normalization
dedup keys (the lower-cased keywords) are pairwise distinct; a repeated
detection of the same key accumulates its count instead of duplicating the
entry — e.g. "GST and GST" yields the single entry "GST" with count 4 (two
phrase matches plus two acronym matches). -/
theorem claim_C9 :
    (∀ (text : List Nat) (opts : ExtractOptions),
      ((extractKeywords text opts).map fun e => lowerS e.keyword).Nodup) ∧
    extractKeywords (S "GST and GST") {} =
      [{ keyword := S "GST", count := 4, type := KType.phrase,
         category := some (S "Taxation") }] := by
  constructor
  · intro text opts
    have h1 : ((rawEntries text opts).map fun e => lowerS e.keyword).Nodup := by
      rw [rawEntries_keys]
      exact (goodMap_finalMap text opts).1
    have hperm :
        List.Perm
          ((List.insertionSort countGE (rawEntries text opts)).map (fun e => lowerS e.keyword))
          ((rawEntries text opts).map (fun e => lowerS e.keyword)) :=
      (List.perm_insertionSort countGE _).map _
    have h2 := hperm.nodup_iff.mpr h1
    rw [extractKeywords, List.map_take]
    exact List.Nodup.sublist (List.take_sublist _ _) h2
  · decide

-- ============ sorting lemmas (for C7) ============

instance : IsTotal Entry countGE := ⟨fun a b => Nat.le_total b.count a.count⟩

instance : IsTrans Entry countGE := ⟨fun _ _ _ hab hbc => Nat.le_trans hbc hab⟩

theorem filter_count_orderedInsert (x : Entry) (c : Nat) :
    ∀ l : List Entry,
      ((List.orderedInsert countGE x l).filter fun e => e.count == c)
        = ((x :: l).filter fun e => e.count == c) := by
  intro l
  induction l with
  | nil => rfl
  | cons y t ih =>
    rw [List.orderedInsert]
    split
    · rfl
    · next hcond =>
      have hxy : x.count < y.count := Nat.lt_of_not_le hcond
      by_cases hx : (x.count == c) = true
      · have hxc : x.count = c := eq_of_beq hx
        have hy : (y.count == c) = false := by
          rw [beq_eq_false_iff_ne]
          omega
        simp [List.filter_cons, hy, hx, ih]
      · simp [List.filter_cons, hx, ih]

theorem filter_count_insertionSort (c : Nat) :
    ∀ l : List Entry,
      ((List.insertionSort countGE l).filter fun e => e.count == c)
        = (l.filter fun e => e.count == c) := by
  intro l
  induction l with
  | nil => rfl
  | cons x t ih =>
    rw [List.insertionSort, filter_count_orderedInsert, List.filter_cons, List.filter_cons, ih]

/-- Claim C7: the returned list is sorted by descending occurrence count,
never has more than `maxKeywords` entries, and ties keep their
first-encountered (map insertion) order — for every count value, the
returned entries with that count form a prefix of the pre-sort (insertion
ordered) entries with that count, in the same order. -/
theorem claim_C7 (text : List Nat) (opts : ExtractOptions) :
    List.Sorted countGE (extractKeywords text opts) ∧
    (extractKeywords text opts).length ≤ opts.maxKeywords ∧
    ∀ c : Nat, ∃ rest,
      ((extractKeywords text opts).filter fun e => e.count == c) ++ rest
        = ((rawEntries text opts).filter fun e => e.count == c) := by
  refine ⟨?_, ?_, ?_⟩
  · exact List.Pairwise.sublist (List.take_sublist _ _) (List.sorted_insertionSort countGE _)
  · rw [extractKeywords]
    exact List.length_take_le _ _
  · intro c
    refine ⟨((List.insertionSort countGE (rawEntries text opts)).drop opts.maxKeywords).filter
      fun e => e.count == c, ?_⟩
    rw [extractKeywords, ← List.filter_append, List.take_append_drop,
      filter_count_insertionSort]

end PolicyKeywords

namespace PolicyKeywordsV62

/-- Insertion-ordered deduplication: the iteration order of a JavaScript
`Set` built from a literal with duplicates. -/
def jsSetListGo (seen : List (List Nat)) : List (List Nat) → List (List Nat)
  | [] => []
  | x :: t =>
    if seen.contains x then jsSetListGo seen t else x :: jsSetListGo (x :: seen) t

-- module part_008 (PolicyKeywords v6.2): KNOWN_PHRASES Set literal (verbatim; Set semantics applied via jsSetList)

def KNOWN_PHRASES_LIT : List (List Nat) := [
  S "digital india", S "make in india", S "startup india", S "skill india",
  S "atmanirbhar bharat", S "swachh bharat", S "smart cities", S "pradhan mantri",
  S "jan dhan", S "ujjwala yojana", S "ayushman bharat", S "pm kisan",
  S "one nation one ration", S "one nation one tax", S "one nation one election", S "atal pension yojana",
  S "sukanya samriddhi", S "stand up india", S "bharat net", S "gram swaraj",
  S "ujala scheme", S "national highways", S "fiscal deficit", S "current account deficit",
  S "trade deficit", S "foreign exchange", S "monetary policy", S "fiscal policy",
  S "repo rate", S "reverse repo", S "cash reserve ratio", S "statutory liquidity ratio",
  S "gross domestic product", S "gross value added", S "wholesale price index", S "consumer price index",
  S "ease of doing business", S "foreign direct investment", S "foreign institutional investor", S "public sector undertaking",
  S "disinvestment", S "privatization", S "public private partnership", S "capital gains",
  S "goods and services tax", S "income tax", S "corporate tax", S "customs duty",
  S "excise duty", S "tax evasion", S "black money", S "offshore accounts",
  S "tax haven", S "reserve bank", S "finance ministry", S "commerce ministry",
  S "external affairs ministry", S "home ministry", S "defence ministry", S "prime minister office",
  S "cabinet secretary", S "attorney general", S "solicitor general", S "comptroller auditor general",
  S "election commission", S "central information commission", S "national green tribunal", S "national company law tribunal",
  S "insolvency bankruptcy", S "competition commission", S "consumer disputes", S "digital public infrastructure",
  S "unified payments interface", S "aadhaar enabled", S "open network", S "digital commerce",
  S "open banking", S "account aggregator", S "central bank digital currency", S "blockchain",
  S "artificial intelligence", S "machine learning", S "data protection", S "personal data",
  S "data privacy", S "data localization", S "cross border", S "data fiduciary",
  S "consent manager", S "data principal", S "social media", S "intermediary guidelines",
  S "safe harbour", S "significant social media intermediary", S "content moderation", S "labour code",
  S "minimum wage", S "provident fund", S "gratuity", S "industrial disputes",
  S "trade union", S "contract labour", S "gig worker", S "platform worker",
  S "social security", S "esi", S "epfo", S "pension fund",
  S "unorganized sector", S "national infrastructure pipeline", S "gati shakti", S "bharatmala",
  S "sagarmala", S "dedicated freight corridor", S "high speed rail", S "bullet train",
  S "metro rail", S "smart city", S "housing for all", S "affordable housing",
  S "real estate", S "rera", S "infrastructure investment trust", S "renewable energy",
  S "solar power", S "wind power", S "green hydrogen", S "electric vehicle",
  S "carbon emission", S "net zero", S "climate change", S "paris agreement",
  S "cop summit", S "national action plan", S "clean energy", S "fossil fuel",
  S "coal mining", S "gas pipeline", S "public health", S "medical device",
  S "drug pricing", S "essential medicines", S "clinical trial", S "pharmaceutical",
  S "generic drug", S "vaccine", S "health insurance", S "medical college",
  S "nursing", S "telemedicine", S "national education policy", S "higher education",
  S "skill development", S "vocational training", S "digital literacy", S "online education",
  S "school education", S "teacher training", S "national testing agency", S "constitutional amendment",
  S "ordinance", S "parliament session", S "lok sabha", S "rajya sabha",
  S "supreme court", S "high court", S "district court", S "judicial review",
  S "public interest litigation", S "fundamental rights", S "directive principles", S "article 370",
  S "citizenship amendment", S "uniform civil code", S "anti defection", S "governor role",
  S "president rule", S "emergency provisions", S "export promotion", S "import substitution",
  S "trade agreement", S "free trade", S "world trade organization", S "most favoured nation",
  S "anti dumping", S "countervailing duty", S "safeguard duty", S "special economic zone",
  S "export processing zone", S "non performing asset", S "asset reconstruction", S "bad bank",
  S "bank merger", S "privatization", S "priority sector lending", S "micro finance",
  S "small finance bank", S "payment bank", S "cooperative bank", S "regional rural bank",
  S "development finance", S "venture capital", S "angel investor", S "private equity",
  S "initial public offering", S "follow on offer", S "rights issue", S "national security",
  S "border security", S "cyber security", S "defence procurement", S "make in india defence",
  S "strategic partnership", S "nuclear program", S "missile defense", S "armed forces",
  S "paramilitary", S "counter terrorism", S "internal security", S "minimum support price",
  S "agricultural produce marketing", S "farmer producer organization", S "crop insurance", S "kisan credit",
  S "agricultural infrastructure", S "cold storage", S "food processing", S "organic farming",
  S "natural farming", S "food security"
]

-- ACRONYMS object (lower-case keys) -> expansion

def ACRONYMS : List (List Nat × List Nat) := [
  (S "rbi", S "Reserve Bank of India"),
  (S "sebi", S "Securities and Exchange Board of India"),
  (S "irdai", S "Insurance Regulatory and Development Authority of India"),
  (S "trai", S "Telecom Regulatory Authority of India"),
  (S "pfrda", S "Pension Fund Regulatory and Development Authority"),
  (S "ibbi", S "Insolvency and Bankruptcy Board of India"),
  (S "cci", S "Competition Commission of India"),
  (S "fssai", S "Food Safety and Standards Authority of India"),
  (S "cbi", S "Central Bureau of Investigation"),
  (S "ed", S "Enforcement Directorate"),
  (S "ngt", S "National Green Tribunal"),
  (S "nclt", S "National Company Law Tribunal"),
  (S "nclat", S "National Company Law Appellate Tribunal"),
  (S "cerc", S "Central Electricity Regulatory Commission"),
  (S "aerc", S "Atomic Energy Regulatory Commission"),
  (S "mof", S "Ministry of Finance"),
  (S "mha", S "Ministry of Home Affairs"),
  (S "mea", S "Ministry of External Affairs"),
  (S "mod", S "Ministry of Defence"),
  (S "moef", S "Ministry of Environment and Forests"),
  (S "meity", S "Ministry of Electronics and Information Technology"),
  (S "dpiit", S "Department for Promotion of Industry and Internal Trade"),
  (S "dgft", S "Directorate General of Foreign Trade"),
  (S "cbdt", S "Central Board of Direct Taxes"),
  (S "cbic", S "Central Board of Indirect Taxes and Customs"),
  (S "niti", S "National Institution for Transforming India"),
  (S "cag", S "Comptroller and Auditor General"),
  (S "upsc", S "Union Public Service Commission"),
  (S "gst", S "Goods and Services Tax"),
  (S "gstn", S "Goods and Services Tax Network"),
  (S "npa", S "Non-Performing Asset"),
  (S "arc", S "Asset Reconstruction Company"),
  (S "nbfc", S "Non-Banking Financial Company"),
  (S "hfc", S "Housing Finance Company"),
  (S "mf", S "Mutual Fund"),
  (S "aif", S "Alternative Investment Fund"),
  (S "fpi", S "Foreign Portfolio Investment"),
  (S "fdi", S "Foreign Direct Investment"),
  (S "ecb", S "External Commercial Borrowings"),
  (S "adr", S "American Depositary Receipt"),
  (S "gdr", S "Global Depositary Receipt"),
  (S "ipo", S "Initial Public Offering"),
  (S "fpo", S "Follow-on Public Offer"),
  (S "ofs", S "Offer For Sale"),
  (S "reit", S "Real Estate Investment Trust"),
  (S "invit", S "Infrastructure Investment Trust"),
  (S "etf", S "Exchange Traded Fund"),
  (S "sip", S "Systematic Investment Plan"),
  (S "upi", S "Unified Payments Interface"),
  (S "imps", S "Immediate Payment Service"),
  (S "neft", S "National Electronic Funds Transfer"),
  (S "rtgs", S "Real Time Gross Settlement"),
  (S "npci", S "National Payments Corporation of India"),
  (S "bbps", S "Bharat Bill Payment System"),
  (S "bhim", S "Bharat Interface for Money"),
  (S "cbdc", S "Central Bank Digital Currency"),
  (S "dpi", S "Digital Public Infrastructure"),
  (S "ondc", S "Open Network for Digital Commerce"),
  (S "ocen", S "Open Credit Enablement Network"),
  (S "depa", S "Data Empowerment and Protection Architecture"),
  (S "dpdp", S "Digital Personal Data Protection"),
  (S "pdpb", S "Personal Data Protection Bill"),
  (S "it act", S "Information Technology Act"),
  (S "ai", S "Artificial Intelligence"),
  (S "ml", S "Machine Learning"),
  (S "gdp", S "Gross Domestic Product"),
  (S "gva", S "Gross Value Added"),
  (S "cpi", S "Consumer Price Index"),
  (S "wpi", S "Wholesale Price Index"),
  (S "iip", S "Index of Industrial Production"),
  (S "pmi", S "Purchasing Managers Index"),
  (S "cad", S "Current Account Deficit"),
  (S "bop", S "Balance of Payments"),
  (S "forex", S "Foreign Exchange"),
  (S "crr", S "Cash Reserve Ratio"),
  (S "slr", S "Statutory Liquidity Ratio"),
  (S "msp", S "Minimum Support Price"),
  (S "pds", S "Public Distribution System"),
  (S "epfo", S "Employees Provident Fund Organisation"),
  (S "esic", S "Employees State Insurance Corporation"),
  (S "pmjdy", S "Pradhan Mantri Jan Dhan Yojana"),
  (S "pmjjby", S "Pradhan Mantri Jeevan Jyoti Bima Yojana"),
  (S "pmsby", S "Pradhan Mantri Suraksha Bima Yojana"),
  (S "pmay", S "Pradhan Mantri Awas Yojana"),
  (S "pmuy", S "Pradhan Mantri Ujjwala Yojana"),
  (S "mgnrega", S "Mahatma Gandhi National Rural Employment Guarantee Act"),
  (S "nfsa", S "National Food Security Act"),
  (S "ab", S "Ayushman Bharat"),
  (S "pmjay", S "Pradhan Mantri Jan Arogya Yojana"),
  (S "nhai", S "National Highways Authority of India"),
  (S "ril", S "Reliance Industries Limited"),
  (S "ntpc", S "National Thermal Power Corporation"),
  (S "ongc", S "Oil and Natural Gas Corporation"),
  (S "iocl", S "Indian Oil Corporation Limited"),
  (S "bpcl", S "Bharat Petroleum Corporation Limited"),
  (S "hpcl", S "Hindustan Petroleum Corporation Limited"),
  (S "gail", S "Gas Authority of India Limited"),
  (S "sez", S "Special Economic Zone"),
  (S "dfc", S "Dedicated Freight Corridor"),
  (S "hsrl", S "High Speed Rail Link"),
  (S "drdo", S "Defence Research and Development Organisation"),
  (S "isro", S "Indian Space Research Organisation"),
  (S "hal", S "Hindustan Aeronautics Limited"),
  (S "bel", S "Bharat Electronics Limited"),
  (S "bdl", S "Bharat Dynamics Limited"),
  (S "beml", S "Bharat Earth Movers Limited"),
  (S "oem", S "Original Equipment Manufacturer"),
  (S "bse", S "Bombay Stock Exchange"),
  (S "nse", S "National Stock Exchange"),
  (S "nsdl", S "National Securities Depository Limited"),
  (S "cdsl", S "Central Depository Services Limited"),
  (S "ifc", S "International Finance Corporation"),
  (S "imf", S "International Monetary Fund"),
  (S "wb", S "World Bank"),
  (S "adb", S "Asian Development Bank"),
  (S "aiib", S "Asian Infrastructure Investment Bank"),
  (S "ndb", S "New Development Bank"),
  (S "wto", S "World Trade Organization"),
  (S "rcep", S "Regional Comprehensive Economic Partnership"),
  (S "brics", S "Brazil Russia India China South Africa"),
  (S "saarc", S "South Asian Association for Regional Cooperation"),
  (S "asean", S "Association of Southeast Asian Nations"),
  (S "g20", S "Group of Twenty"),
  (S "quad", S "Quadrilateral Security Dialogue")
]

-- STOPWORDS Set

def STOPWORDS : List (List Nat) := [
  S "the", S "a", S "an", S "and", S "or", S "but",
  S "in", S "on", S "at", S "to", S "for", S "of",
  S "with", S "by", S "from", S "as", S "is", S "was",
  S "are", S "were", S "been", S "be", S "have", S "has",
  S "had", S "do", S "does", S "did", S "will", S "would",
  S "could", S "should", S "may", S "might", S "must", S "shall",
  S "can", S "need", S "that", S "which", S "who", S "whom",
  S "this", S "these", S "those", S "it", S "its", S "not",
  S "no", S "nor", S "so", S "than", S "too", S "very",
  S "just", S "also", S "only", S "even", S "more", S "most",
  S "other", S "some", S "any", S "all", S "each", S "every",
  S "both", S "few", S "many", S "much", S "such", S "own",
  S "same", S "about", S "into", S "through", S "during", S "before",
  S "after", S "above", S "below", S "between", S "under", S "again",
  S "further", S "then", S "once", S "here", S "there", S "when",
  S "where", S "why", S "how", S "what", S "if", S "because",
  S "until", S "while", S "although", S "though", S "unless", S "whether",
  S "yet", S "however", S "therefore", S "thus", S "hence", S "being",
  S "having", S "doing", S "going", S "coming", S "getting", S "said",
  S "says", S "told", S "added", S "noted", S "stated", S "according",
  S "report", S "reports", S "reported", S "reporting", S "news", S "article",
  S "sources", S "officials", S "official", S "spokesperson", S "announcement", S "announced",
  S "statement", S "statements", S "mentioned", S "claimed", S "revealed", S "disclosed",
  S "confirmed", S "denied", S "alleged", S "update", S "updates", S "updated",
  S "latest", S "recent", S "new", S "today", S "yesterday", S "tomorrow",
  S "week", S "month", S "year", S "monday", S "tuesday", S "wednesday",
  S "thursday", S "friday", S "saturday", S "sunday", S "january", S "february",
  S "march", S "april", S "may", S "june", S "july", S "august",
  S "september", S "october", S "november", S "december", S "lakh", S "lakhs",
  S "crore", S "crores", S "rupee", S "rupees", S "rs", S "inr",
  S "per", S "cent", S "percent", S "percentage", S "govt", S "government",
  S "central", S "state", S "union", S "national", S "delhi", S "mumbai",
  S "kolkata", S "chennai", S "bangalore", S "bengaluru", S "hyderabad", S "ahmedabad",
  S "pune", S "jaipur", S "lucknow", S "kanpur", S "nagpur", S "indore",
  S "thane", S "bhopal", S "visakhapatnam", S "patna", S "vadodara", S "ghaziabad",
  S "ludhiana", S "agra", S "nashik", S "faridabad", S "meerut", S "rajkot",
  S "kalyan", S "vasai", S "varanasi", S "srinagar", S "aurangabad", S "dhanbad",
  S "amritsar", S "navi", S "allahabad", S "howrah", S "ranchi", S "jabalpur",
  S "gwalior", S "vijayawada", S "jodhpur", S "madurai", S "raipur", S "kota",
  S "chandigarh", S "guwahati", S "solapur", S "hubli", S "maharashtra", S "uttar pradesh",
  S "bihar", S "west bengal", S "madhya pradesh", S "tamil nadu", S "rajasthan", S "karnataka",
  S "gujarat", S "andhra pradesh", S "odisha", S "telangana", S "kerala", S "jharkhand",
  S "assam", S "punjab", S "chhattisgarh", S "haryana", S "uttarakhand", S "himachal pradesh",
  S "tripura", S "meghalaya", S "manipur", S "nagaland", S "goa", S "arunachal pradesh",
  S "mizoram", S "sikkim", S "company", S "companies", S "firm", S "firms",
  S "business", S "businesses", S "industry", S "industries", S "sector", S "sectors",
  S "market", S "markets", S "growth", S "development", S "plan", S "plans",
  S "planning", S "proposed", S "proposal", S "proposals", S "initiative", S "initiatives",
  S "scheme", S "schemes", S "program", S "programme", S "programs", S "programmes",
  S "project", S "projects", S "expected", S "likely", S "set", S "look",
  S "looks", S "looking", S "move", S "moves", S "moving", S "step",
  S "steps", S "way", S "ways", S "part", S "parts", S "order",
  S "orders", S "decision", S "decisions", S "made", S "make", S "making",
  S "take", S "takes", S "taking", S "taken", S "give", S "gives",
  S "given", S "giving", S "get", S "gets", S "got", S "getting",
  S "put", S "puts", S "putting", S "come", S "comes", S "came",
  S "go", S "goes", S "went", S "gone", S "see", S "sees",
  S "saw", S "seen", S "know", S "knows", S "knew", S "known",
  S "think", S "thinks", S "thought", S "want", S "wants", S "wanted",
  S "use", S "uses", S "used", S "using", S "include", S "includes",
  S "including", S "included", S "need", S "needs", S "needed", S "work",
  S "works", S "worked", S "working", S "help", S "helps", S "helped",
  S "helping", S "show", S "shows", S "showed", S "shown", S "try",
  S "tries", S "tried", S "trying", S "keep", S "keeps", S "kept",
  S "keeping", S "let", S "lets", S "leave", S "leaves", S "left",
  S "begin", S "begins", S "began", S "seem", S "seems", S "seemed",
  S "feel", S "feels", S "felt", S "become", S "becomes", S "became",
  S "call", S "calls", S "called", S "calling", S "ask", S "asks",
  S "asked", S "run", S "runs", S "ran", S "running", S "turn",
  S "turns", S "turned", S "turning", S "hold", S "holds", S "held",
  S "holding", S "bring", S "brings", S "brought", S "write", S "writes",
  S "wrote", S "written", S "provide", S "provides", S "provided", S "continue",
  S "continues", S "continued", S "follow", S "follows", S "followed", S "stop",
  S "stops", S "stopped", S "create", S "creates", S "created", S "creating",
  S "speak", S "speaks", S "spoke", S "spoken", S "read", S "reads",
  S "allow", S "allows", S "add", S "adds", S "added", S "spend",
  S "spends", S "spent", S "win", S "wins", S "won", S "offer",
  S "offers", S "offered", S "remember", S "considers", S "appear", S "appears",
  S "buy", S "buys", S "bought", S "wait", S "waits", S "serve",
  S "serves", S "die", S "dies", S "send", S "sends", S "sent",
  S "expect", S "expects", S "build", S "builds", S "built", S "stay",
  S "stays", S "fall", S "falls", S "fell", S "cut", S "cuts",
  S "reach", S "reaches", S "kill", S "kills", S "remain", S "remains",
  S "suggest", S "suggests", S "raise", S "raises", S "pass", S "passes",
  S "passed", S "sell", S "sells", S "sold", S "require", S "requires",
  S "meet", S "meets", S "met", S "pay", S "pays", S "paid",
  S "hear", S "hears", S "heard", S "lose", S "loses", S "lost",
  S "watch", S "watches", S "carry", S "carries", S "carried", S "cause",
  S "causes", S "caused", S "support", S "supports", S "supported", S "hit",
  S "hits", S "produce", S "produces", S "change", S "changes", S "changed"
]

-- SYNONYMS object

def SYNONYMS : List (List Nat × List Nat) := [
  (S "rbi", S "reserve bank of india"),
  (S "reserve bank", S "reserve bank of india"),
  (S "sebi", S "securities exchange board"),
  (S "securities board", S "securities exchange board"),
  (S "gst", S "goods and services tax"),
  (S "goods services tax", S "goods and services tax"),
  (S "upi", S "unified payments interface"),
  (S "digital payments", S "unified payments interface"),
  (S "cbdc", S "central bank digital currency"),
  (S "digital rupee", S "central bank digital currency"),
  (S "dpdp", S "data protection"),
  (S "pdpb", S "data protection"),
  (S "personal data protection", S "data protection"),
  (S "digital personal data", S "data protection"),
  (S "npa", S "non performing assets"),
  (S "non-performing asset", S "non performing assets"),
  (S "bad loans", S "non performing assets"),
  (S "fdi", S "foreign direct investment"),
  (S "foreign investment", S "foreign direct investment"),
  (S "ibc", S "insolvency bankruptcy"),
  (S "bankruptcy code", S "insolvency bankruptcy"),
  (S "esg", S "environmental social governance"),
  (S "sustainable investing", S "environmental social governance"),
  (S "ai", S "artificial intelligence"),
  (S "machine learning", S "artificial intelligence"),
  (S "electric vehicles", S "electric vehicle"),
  (S "ev", S "electric vehicle"),
  (S "evs", S "electric vehicle"),
  (S "renewable", S "renewable energy"),
  (S "solar", S "renewable energy"),
  (S "wind power", S "renewable energy"),
  (S "clean energy", S "renewable energy"),
  (S "fintech", S "financial technology"),
  (S "neo bank", S "financial technology"),
  (S "digital bank", S "financial technology"),
  (S "ondc", S "open network digital commerce"),
  (S "startup", S "startups"),
  (S "start-up", S "startups"),
  (S "start up", S "startups")
]

-- NAME_PATTERNS[0] title alternatives

def NAME_TITLES : List (List Nat) := [
  S "mr", S "mrs", S "ms", S "dr", S "prof", S "shri", S "smt", S "km",
  S "justice", S "hon", S "adv"
]

-- NAME_PATTERNS[1] surname alternatives

def NAME_SURNAMES : List (List Nat) := [
  S "kumar", S "singh", S "sharma", S "verma", S "gupta", S "patel",
  S "reddy", S "rao", S "nair", S "iyer", S "menon", S "pillai",
  S "das", S "roy", S "sen", S "bose", S "chatterjee", S "banerjee",
  S "mukherjee", S "ghosh", S "mishra", S "pandey", S "tiwari", S "dubey",
  S "trivedi", S "yadav", S "chauhan", S "rathore", S "rajput", S "thakur",
  S "joshi", S "kulkarni", S "deshmukh", S "patil", S "pawar", S "chavan",
  S "jadhav", S "shinde", S "gaikwad", S "kadam", S "more", S "kale",
  S "sawant", S "deshpande", S "jain", S "agarwal", S "goel", S "goyal",
  S "mittal", S "bansal", S "singhal", S "mahajan", S "arora", S "suri",
  S "khanna", S "malhotra", S "kapoor", S "sahni", S "bhatia", S "kohli",
  S "sethi", S "sodhi", S "bajaj", S "dhawan", S "mehra", S "chopra",
  S "anand", S "grover"
]

/-- `KNOWN_PHRASES` as iterated: the Set of the literal (first occurrences,
in insertion order). -/
def KNOWN_PHRASES : List (List Nat) := jsSetListGo [] KNOWN_PHRASES_LIT

/-- `SYNONYMS[k]`. -/
def synLookup (k : List Nat) : Option (List Nat) :=
  (SYNONYMS.find? (fun p => p.1 == k)).map Prod.snd

/-- `ACRONYMS[k]` (keys are lower case in this module). -/
def acrLookup (k : List Nat) : Option (List Nat) :=
  (ACRONYMS.find? (fun p => p.1 == k)).map Prod.snd

/-- `expandAcronym(text)`: `ACRONYMS[text.toLowerCase().trim()] || null`. -/
def expandAcronym (t : List Nat) : Option (List Nat) := acrLookup (lowerS (trimWs t))

/-- `isStopword(word)`: `STOPWORDS.has(word.toLowerCase().trim())`. -/
def isStopword (w : List Nat) : Bool := STOPWORDS.contains (lowerS (trimWs w))

/-- `normalize(text)` for non-empty text: lower-case and trim, replace by the
synonym-map canonical form when present, then — if the result is an acronym
key — by the lower-cased expansion. -/
def normalize (t : List Nat) : List Nat :=
  let n0 := lowerS (trimWs t)
  let n1 := (synLookup n0).getD n0
  match expandAcronym n1 with
  | some exp => lowerS exp
  | none => n1

/-- The `normalize(x) || x` idiom of the callers: `normalize` returns `null`
for falsy input and the caller falls back to the original; an empty
normalization result (also falsy) falls back likewise. -/
def normOr (t : List Nat) : List Nat :=
  if t.isEmpty then t
  else
    let n := normalize t
    if n.isEmpty then t else n

-- ============ person-name heuristic (NAME_PATTERNS) ============

/-- `NAME_PATTERNS[0]` = `/^(mr|mrs|ms|dr|prof|shri|smt|km|justice|hon|adv)\s/i`:
a title followed by one whitespace character. -/
def titleMatchV62 (lw : List Nat) : Bool :=
  NAME_TITLES.any fun p => leadsWith p lw && isWsC ((lw.drop p.length).headD 0)

/-- `needle` matches at the start of `rest` with a word boundary after it. -/
def boundedAt (needle rest : List Nat) : Bool :=
  leadsWith needle rest && !isWordC ((rest.drop needle.length).headD 0)

/-- Word-boundary-delimited occurrence search for `/\b(needle)\b/` where
`needle` consists of word characters: some position whose preceding
character is not a word character carries a match followed by a
non-word character or the end. -/
def hasWBGo (needle : List Nat) (prevWord : Bool) : List Nat → Bool
  | [] => false
  | c :: t => (!prevWord && boundedAt needle (c :: t)) || hasWBGo needle (isWordC c) t

/-- `/\b(needle)\b/.test(hay)`. -/
def hasBounded (needle hay : List Nat) : Bool := hasWBGo needle false hay

/-- `NAME_PATTERNS[1]` = `/\b(kumar|singh|...)\b/i`. -/
def surnameMatchV62 (lw : List Nat) : Bool :=
  NAME_SURNAMES.any fun s => hasBounded s lw

/-- `isPersonName(text)` of the v6.2 module: the two patterns on the
lower-cased trimmed text, then the 2-3-capitalized-words-with-surname
check on the raw text. -/
def isPersonNameV62 (t : List Nat) : Bool :=
  let lower := lowerS (trimWs t)
  if titleMatchV62 lower || surnameMatchV62 lower then true
  else
    let words := splitWs t
    if decide (2 ≤ words.length) && decide (words.length ≤ 3) then
      (words.all fun w => isUpperAZ (w.headD 0)) && surnameMatchV62 (lowerS t)
    else false

-- ============ extractFromText ============

/-- Options of `extractFromText` with the source defaults (`maxWords` is
destructured by the source but never used). -/
structure TextOptions where
  minLength : Nat := 3
  maxWords : Nat := 4
  includeAcronyms : Bool := true
  filterNames : Bool := true

/-- The `keywords` map: keyword → count, in insertion order. -/
abbrev KwMap := List (List Nat × Nat)

/-- `keywords.has(k)`. -/
def kwHas (m : KwMap) (k : List Nat) : Bool := m.any fun p => p.1 == k

/-- `keywords.set(k, (keywords.get(k) || 0) + 1)`. -/
def kwBump (m : KwMap) (k : List Nat) : KwMap :=
  if kwHas m k then m.map (fun p => if p.1 == k then (p.1, p.2 + 1) else p)
  else m ++ [(k, 1)]

/-- Step 1 of `extractFromText`: each known phrase contained in the lowered
text bumps its normalized form once. -/
def phrasePassV62 (textLower : List Nat) (m : KwMap) : KwMap :=
  KNOWN_PHRASES.foldl
    (fun m phrase => if jsIncludes textLower phrase then kwBump m (normOr phrase) else m) m

/-- The matches of `/\b[A-Z]{2,6}\b/g` on the original-case text. -/
def acronymCandidates (text : List Nat) : List (List Nat) :=
  (wordRuns text).filter fun r =>
    decide (2 ≤ r.length) && decide (r.length ≤ 6) && r.all isUpperAZ

/-- Step 2 of `extractFromText`: each uppercase-run match whose lower-cased
form is an acronym key bumps its normalized form. -/
def acronymPassV62 (text : List Nat) (m : KwMap) : KwMap :=
  (acronymCandidates text).foldl
    (fun m r =>
      let acronym := lowerS r
      if (acrLookup acronym).isSome then kwBump m (normOr acronym) else m) m

/-- The `replace(/[^a-z0-9\s-]/g, ' ')` step on one (already lowered) code
point. -/
def cleanC8 (n : Nat) : Nat :=
  if isLowerAZ n || isDigitC n || isWsC n || n == 45 then n else 32

/-- The `words` list of `extractFromText`. -/
def wordsOfV62 (text : List Nat) (minLength : Nat) : List (List Nat) :=
  (splitWs ((lowerS text).map cleanC8)).filter fun w =>
    decide (minLength ≤ w.length) && !isStopword w

/-- Step 3 of `extractFromText`: words not contained in an existing map key
bump their normalized form. -/
def wordPassV62 (text : List Nat) (minLength : Nat) (m : KwMap) : KwMap :=
  (wordsOfV62 text minLength).foldl
    (fun m w => if m.any (fun p => jsIncludes p.1 w) then m else kwBump m (normOr w)) m

/-- One keyword-count result of `extractFromText`. -/
structure KwCount where
  keyword : List Nat
  count : Nat
deriving DecidableEq, Repr

/-- The comparator `(a, b) => b.count - a.count` of `extractFromText`
(stable sort, descending count). -/
def kcGE (a b : KwCount) : Prop := b.count ≤ a.count

instance : DecidableRel kcGE := fun a b => Nat.decLe b.count a.count

/-- `extractFromText(text, options)`: phrase pass, acronym pass, word pass,
person-name filter, then entries sorted by descending count. -/
def extractFromText (text : List Nat) (opts : TextOptions) : List KwCount :=
  if text.isEmpty then []
  else
    let m1 := phrasePassV62 (lowerS text) []
    let m2 := if opts.includeAcronyms then acronymPassV62 text m1 else m1
    let m3 := wordPassV62 text opts.minLength m2
    let m4 := if opts.filterNames then m3.filter (fun p => !isPersonNameV62 p.1) else m3
    List.insertionSort kcGE (m4.map fun p => { keyword := p.1, count := p.2 })

-- ============ extractFromArticles ============

/-- A field value of an article record: a string or an array of strings
(the `keywords` field). -/
inductive FieldVal where
  | str (s : List Nat)
  | arr (l : List (List Nat))
deriving DecidableEq

/-- An article record: named text fields plus the `url`/`id` used for
traceability (absent = `undefined`). -/
structure Article where
  fields : List (List Nat × FieldVal)
  url : Option (List Nat) := none
  id : Option (List Nat) := none

/-- `article[field]`. -/
def getField (a : Article) (f : List Nat) : Option FieldVal :=
  (a.fields.find? fun p => p.1 == f).map Prod.snd

/-- `Array.prototype.join(' ')`. -/
def joinSpace : List (List Nat) → List Nat
  | [] => []
  | [x] => x
  | x :: y :: t => x ++ (32 :: joinSpace (y :: t))

/-- `Set.prototype.add`: append when absent (insertion order kept). -/
def setAdd (s : List (List Nat)) (k : List Nat) : List (List Nat) :=
  if s.any (fun x => x == k) then s else s ++ [k]

/-- The `articleKeywords` Set of one article: all distinct keywords the
extractor finds in the requested fields (a falsy — absent or empty-string —
field is skipped; an array field is joined with spaces). -/
def articleKeywords (a : Article) (fields : List (List Nat)) (topts : TextOptions) :
    List (List Nat) :=
  fields.foldl
    (fun acc f =>
      match getField a f with
      | none => acc
      | some (FieldVal.str s) =>
        if s.isEmpty then acc
        else (extractFromText s topts).foldl (fun acc e => setAdd acc e.keyword) acc
      | some (FieldVal.arr l) =>
        (extractFromText (joinSpace l) topts).foldl (fun acc e => setAdd acc e.keyword) acc)
    []

/-- `article.url || article.id` (an empty-string url is falsy; a missing
value is `undefined`, modelled as `none`). -/
def urlOrId (a : Article) : Option (List Nat) :=
  match a.url with
  | some u => if u.isEmpty then a.id else some u
  | none => a.id

/-- The global table: keyword → (article-count, article identifier Set). -/
abbrev GMap := List (List Nat × Nat × List (Option (List Nat)))

/-- `globalKeywords.has(k)`. -/
def gHas (g : GMap) (k : List Nat) : Bool := g.any fun p => p.1 == k

/-- `entry.articles.add(x)` on the identifier Set. -/
def setAddOpt (s : List (Option (List Nat))) (x : Option (List Nat)) :
    List (Option (List Nat)) :=
  if s.any (fun y => y == x) then s else s ++ [x]

/-- Register one distinct keyword of one article in the global table:
create the entry if missing, then `entry.count++` and add the article
identifier. -/
def gBump (g : GMap) (k : List Nat) (art : Option (List Nat)) : GMap :=
  if gHas g k then
    g.map fun p => if p.1 == k then (p.1, p.2.1 + 1, setAddOpt p.2.2 art) else p
  else g ++ [(k, 1, [art])]

/-- The per-article registration loop of `extractFromArticles`. -/
def registerArticle (g : GMap) (a : Article) (fields : List (List Nat))
    (topts : TextOptions) : GMap :=
  (articleKeywords a fields topts).foldl (fun g k => gBump g k (urlOrId a)) g

/-- Options of `extractFromArticles` with the source defaults; `text` holds
the `...textOptions` rest forwarded to `extractFromText`. -/
structure AggOptions where
  fields : List (List Nat) := [S "title", S "summary", S "keywords"]
  minOccurrences : Nat := 2
  topN : Nat := 100
  text : TextOptions := {}

/-- One aggregated result of `extractFromArticles`. -/
structure AggEntry where
  keyword : List Nat
  count : Nat
  articles : List (Option (List Nat))
deriving DecidableEq

/-- The comparator `(a, b) => b.count - a.count` of `extractFromArticles`. -/
def aggGE (a b : AggEntry) : Prop := b.count ≤ a.count

instance : DecidableRel aggGE := fun a b => Nat.decLe b.count a.count

/-- The `globalKeywords` table after scanning all articles. -/
def globalTable (articles : List Article) (opts : AggOptions) : GMap :=
  articles.foldl (fun g a => registerArticle g a opts.fields opts.text) []

/-- `extractFromArticles(articles, options)`: per article register each
distinct keyword once, then filter by `minOccurrences`, sort by descending
article-count (stable) and truncate to `topN`. -/
def extractFromArticles (articles : List Article) (opts : AggOptions) : List AggEntry :=
  (List.insertionSort aggGE
    (((globalTable articles opts).filter fun p => decide (opts.minOccurrences ≤ p.2.1)).map
      fun p => { keyword := p.1, count := p.2.1, articles := p.2.2 })).take opts.topN

-- ============ claim C6: article-count bound ============

theorem mem_gBump {g : GMap} {k : List Nat} {art : Option (List Nat)}
    {p : List Nat × Nat × List (Option (List Nat))} (h : p ∈ gBump g k art) :
    (∃ q ∈ g, p = q ∨ (p.1 = q.1 ∧ p.2.1 = q.2.1 + 1 ∧ q.1 = k)) ∨
      p = (k, 1, [art]) := by
  rw [gBump] at h
  split at h
  · rw [List.mem_map] at h
    obtain ⟨q, hq, hpq⟩ := h
    by_cases hk : (q.1 == k) = true
    · rw [if_pos hk] at hpq
      subst hpq
      exact Or.inl ⟨q, hq, Or.inr ⟨rfl, rfl, eq_of_beq hk⟩⟩
    · rw [if_neg hk] at hpq
      subst hpq
      exact Or.inl ⟨q, hq, Or.inl rfl⟩
  · rcases List.mem_append.mp h with h1 | h1
    · exact Or.inl ⟨p, h1, Or.inl rfl⟩
    · rw [List.mem_singleton] at h1
      exact Or.inr h1

/-- Over a duplicate-free keyword list, one article's registration loop
raises each global count by at most one. -/
theorem registerGo_bound (art : Option (List Nat)) :
    ∀ (ks : List (List Nat)) (g : GMap) (n : Nat),
      ks.Nodup →
      (∀ p ∈ g, p.2.1 ≤ n + 1) →
      (∀ p ∈ g, p.1 ∈ ks → p.2.1 ≤ n) →
      ∀ p ∈ ks.foldl (fun g k => gBump g k art) g, p.2.1 ≤ n + 1 := by
  intro ks
  induction ks with
  | nil => intro g n _ h1 _ p hp; exact h1 p hp
  | cons k0 rest ih =>
    intro g n hnd h1 h2 p hp
    rw [List.foldl_cons] at hp
    have hnd' := List.nodup_cons.mp hnd
    refine ih (gBump g k0 art) n hnd'.2 ?_ ?_ p hp
    · intro q hq
      rcases mem_gBump hq with ⟨r, hr, hqr⟩ | hq'
      · rcases hqr with heq | ⟨_, hcount, hrk⟩
        · rw [heq]
          exact h1 r hr
        · have hb := h2 r hr (by rw [hrk]; exact List.mem_cons_self _ _)
          omega
      · rw [hq']
        show 1 ≤ n + 1
        omega
    · intro q hq hqrest
      rcases mem_gBump hq with ⟨r, hr, hqr⟩ | hq'
      · rcases hqr with heq | ⟨hq1, _, hrk⟩
        · rw [heq] at hqrest ⊢
          exact h2 r hr (List.mem_cons_of_mem _ hqrest)
        · exfalso
          apply hnd'.1
          rw [← hrk, ← hq1]
          exact hqrest
      · exfalso
        apply hnd'.1
        rw [hq'] at hqrest
        exact hqrest

theorem setAdd_nodup {s : List (List Nat)} (h : s.Nodup) (k : List Nat) :
    (setAdd s k).Nodup := by
  rw [setAdd]
  split
  · exact h
  · next hany =>
    refine List.Nodup.append h (List.nodup_singleton k) ?_
    intro a ha hb
    rw [List.mem_singleton] at hb
    subst hb
    exact hany (List.any_eq_true.mpr ⟨a, ha, beq_self_eq_true a⟩)

/-- A `foldl` whose step preserves a predicate preserves it overall. -/
theorem foldl_preserve {α β : Type} {P : α → Prop} {step : α → β → α}
    (h : ∀ s x, P s → P (step s x)) :
    ∀ (l : List β) (s : α), P s → P (l.foldl step s) := by
  intro l
  induction l with
  | nil => intro s hs; exact hs
  | cons x t ih => intro s hs; exact ih _ (h s x hs)

theorem foldl_setAdd_nodup (l : List KwCount) (s : List (List Nat)) (hs : s.Nodup) :
    (l.foldl (fun acc e => setAdd acc e.keyword) s).Nodup :=
  @foldl_preserve (List (List Nat)) KwCount (fun s => s.Nodup)
    (fun acc e => setAdd acc e.keyword) (fun _ x hns => setAdd_nodup hns x.keyword) l s hs

theorem articleKeywords_nodup (a : Article) (fields : List (List Nat))
    (topts : TextOptions) : (articleKeywords a fields topts).Nodup := by
  rw [articleKeywords]
  refine @foldl_preserve (List (List Nat)) (List Nat) (fun s => s.Nodup) _ ?_ fields []
    List.nodup_nil
  intro s f hs
  cases hf : getField a f with
  | none => simpa [hf] using hs
  | some fv =>
    cases fv with
    | str t =>
      by_cases ht : t.isEmpty
      · simpa [hf, ht] using hs
      · simpa [hf, ht] using foldl_setAdd_nodup _ s hs
    | arr l => simpa [hf] using foldl_setAdd_nodup _ s hs

/-- Every count in the global table is bounded by the number of scanned
articles. -/
theorem globalTable_bound (opts : AggOptions) :
    ∀ (articles : List Article) (g : GMap) (n : Nat),
      (∀ p ∈ g, p.2.1 ≤ n) →
      ∀ p ∈ articles.foldl (fun g a => registerArticle g a opts.fields opts.text) g,
        p.2.1 ≤ n + articles.length := by
  intro articles
  induction articles with
  | nil => intro g n h p hp; simpa using h p hp
  | cons a rest ih =>
    intro g n h p hp
    rw [List.foldl_cons] at hp
    have h1 : ∀ q ∈ registerArticle g a opts.fields opts.text, q.2.1 ≤ n + 1 := by
      intro q hq
      refine registerGo_bound (urlOrId a) (articleKeywords a opts.fields opts.text) g n
        (articleKeywords_nodup a opts.fields opts.text) ?_ ?_ q hq
      · intro r hr
        have := h r hr
        omega
      · intro r hr _
        exact h r hr
    have h2 := ih (registerArticle g a opts.fields opts.text) (n + 1) h1 p hp
    rw [List.length_cons]
    omega

/-- Claim C6: in batch aggregation, each article contributes at most one
increment per distinct keyword, so every entry returned by
`extractFromArticles` has an article-count bounded by the number of
articles scanned. -/
theorem claim_C6 (articles : List Article) (opts : AggOptions) (e : AggEntry)
    (he : e ∈ extractFromArticles articles opts) : e.count ≤ articles.length := by
  rw [extractFromArticles] at he
  have h2 := (List.take_sublist _ _).mem he
  have h3 := (List.mem_insertionSort aggGE).mp h2
  rw [List.mem_map] at h3
  obtain ⟨p, hp, hpe⟩ := h3
  have hg : p ∈ globalTable articles opts := (List.mem_filter.mp hp).1
  rw [globalTable] at hg
  have hb := globalTable_bound opts articles [] 0
    (fun q hq => absurd hq (List.not_mem_nil q)) p hg
  rw [← hpe]
  simpa using hb

/-- Claim C6 (witness): one article titled "GST", aggregated with
`minOccurrences := 1`, yields the single entry "goods and services tax"
with article-count 1 ≤ 1. -/
theorem claim_C6_witness :
    ({ keyword := S "goods and services tax", count := 1, articles := [none] } : AggEntry)
        ∈ extractFromArticles [{ fields := [(S "title", FieldVal.str (S "GST"))] }]
            { fields := [S "title"], minOccurrences := 1 } ∧
    ({ keyword := S "goods and services tax", count := 1, articles := [none] } : AggEntry).count
      ≤ ([{ fields := [(S "title", FieldVal.str (S "GST"))] }] : List Article).length :=
  ⟨by decide, claim_C6 [{ fields := [(S "title", FieldVal.str (S "GST"))] }]
    { fields := [S "title"], minOccurrences := 1 } _ (by decide)⟩

end PolicyKeywordsV62
